import Mathlib

/-! # oclraster: `lib/pipeline/image.cpp`

A shallow embedding of the image resource unit of the Flexible OpenCL Rasterizer
(`src/lib/pipeline/image.cpp`) and theorems about it.

Conventions of the embedding:

* `unsigned int` is a `Nat` below `2 ^ 32`, `size_t` a `Nat` below `2 ^ 64`; every
  arithmetic operation of the source is followed by the reduction of its C++ type.
* `enum class` values are their underlying integer, so that values outside the named
  members (which the source guards against with `>= __MAX_*`) can be expressed.
* A result of `none` is undefined behaviour of the C++ program (`oclr_unreachable()`
  reached, or a table indexed out of bounds).
* A pointer to bytes is the memory seen from it (`Nat → Nat`, offset to byte);
  `nullptr` is `none`. Where only the value of a pointer matters (`map`, `unmap`) it
  is an integer address.
-/

namespace oclraster

/-! ## Machine integers -/

/-- The number of values of an `unsigned int`. -/
def UINT_RANGE : Nat := 2 ^ 32

/-- The number of values of a `size_t` (LP64 host). -/
def SIZE_RANGE : Nat := 2 ^ 64

/-- Multiplication of two `unsigned int`. -/
def u32_mul (a b : Nat) : Nat := (a * b) % UINT_RANGE

/-- Multiplication of two `size_t`. -/
def size_mul (a b : Nat) : Nat := (a * b) % SIZE_RANGE

/-- Addition of two `size_t`. -/
def size_add (a b : Nat) : Nat := (a + b) % SIZE_RANGE

/-- The value `~0u`. -/
def UINT_ALL_ONES : Nat := 0xFFFFFFFF

/-! ## Enumerations (`image_types.h`, by underlying value)

The enumerators are named in `image.cpp`; their declaration is in `image_types.h`.
They are numbered in the order in which the size tables of `image.cpp` list them
(none, `INT*`, `UINT*`, `FLOAT*`; none, `R/RG/RGB/RGBA`), the maximum marker being the
length of the table. -/

/-- Modelled from the spec: the `enum class IMAGE_TYPE` of `image_types.h`, which is not
under src, as its underlying value. -/
abbrev IMAGE_TYPE := Nat

/-- Modelled from the spec: the `enum class IMAGE_CHANNEL` of `image_types.h`, which is
not under src, as its underlying value. -/
abbrev IMAGE_CHANNEL := Nat

def IMAGE_TYPE.NONE : IMAGE_TYPE := 0
def IMAGE_TYPE.INT_8 : IMAGE_TYPE := 1
def IMAGE_TYPE.INT_16 : IMAGE_TYPE := 2
def IMAGE_TYPE.INT_32 : IMAGE_TYPE := 3
def IMAGE_TYPE.INT_64 : IMAGE_TYPE := 4
def IMAGE_TYPE.UINT_8 : IMAGE_TYPE := 5
def IMAGE_TYPE.UINT_16 : IMAGE_TYPE := 6
def IMAGE_TYPE.UINT_32 : IMAGE_TYPE := 7
def IMAGE_TYPE.UINT_64 : IMAGE_TYPE := 8
def IMAGE_TYPE.FLOAT_16 : IMAGE_TYPE := 9
def IMAGE_TYPE.FLOAT_32 : IMAGE_TYPE := 10
def IMAGE_TYPE.FLOAT_64 : IMAGE_TYPE := 11
def IMAGE_TYPE.__MAX_TYPE : IMAGE_TYPE := 12

def IMAGE_CHANNEL.NONE : IMAGE_CHANNEL := 0
def IMAGE_CHANNEL.R : IMAGE_CHANNEL := 1
def IMAGE_CHANNEL.RG : IMAGE_CHANNEL := 2
def IMAGE_CHANNEL.RGB : IMAGE_CHANNEL := 3
def IMAGE_CHANNEL.RGBA : IMAGE_CHANNEL := 4
def IMAGE_CHANNEL.__MAX_CHANNEL : IMAGE_CHANNEL := 5

/-- The byte order branch the unit is compiled for. -/
inductive Endian where
  | SDL_LIL_ENDIAN
  | SDL_BIG_ENDIAN
  deriving DecidableEq, Repr

/-! ## Format descriptor tables -/

/-- The table `image_type_sizes`, one entry per value below `__MAX_TYPE`. -/
def image_type_sizes : List Nat :=
  [ 0,
    1, 2, 4, 8, -- INT*
    1, 2, 4, 8, -- UINT*
    2, 4, 8 ]   -- FLOAT*

/-- The table `image_channel_sizes`, one entry per value below `__MAX_CHANNEL`. -/
def image_channel_sizes : List Nat :=
  [ 0,
    1, 2, 3, 4 ] -- R/RG/RGB/RGBA

/-! ## Decoder surface format (`SDL_PixelFormat`) -/

/-- The fields of `SDL_PixelFormat` that describe the pixel encoding. -/
structure SDL_PixelFormat where
  format : Nat
  BitsPerPixel : Nat
  BytesPerPixel : Nat
  Rmask : Nat
  Gmask : Nat
  Bmask : Nat
  Amask : Nat
  Rloss : Nat
  Gloss : Nat
  Bloss : Nat
  Aloss : Nat
  Rshift : Nat
  Gshift : Nat
  Bshift : Nat
  Ashift : Nat
  deriving DecidableEq, Repr

/-- The function `is_correct_format`: `some false` where the source returns `false`,
`some true` where control reaches `return true`, `none` at `oclr_unreachable()`.
A value matching no `case` label skips the `switch`. -/
def is_correct_format (e : Endian) (format : SDL_PixelFormat)
    (channel_order : IMAGE_CHANNEL) : Option Bool :=
  match e with
  | .SDL_LIL_ENDIAN =>
    if channel_order = IMAGE_CHANNEL.R then
      if format.Rmask ≠ 0xFF ∨ format.Gmask ≠ 0 ∨
         format.Bmask ≠ 0 ∨ format.Amask ≠ 0 then some false else some true
    else if channel_order = IMAGE_CHANNEL.RG then
      if format.Rmask ≠ 0xFF ∨ format.Gmask ≠ 0xFF00 ∨
         format.Bmask ≠ 0 ∨ format.Amask ≠ 0 then some false else some true
    else if channel_order = IMAGE_CHANNEL.RGB then
      if format.Rmask ≠ 0xFF ∨ format.Gmask ≠ 0xFF00 ∨
         format.Bmask ≠ 0xFF0000 ∨ format.Amask ≠ 0 then some false else some true
    else if channel_order = IMAGE_CHANNEL.RGBA then
      if format.Rmask ≠ 0xFF ∨ format.Gmask ≠ 0xFF00 ∨
         format.Bmask ≠ 0xFF0000 ∨ format.Amask ≠ 0xFF000000 then some false else some true
    else if channel_order = IMAGE_CHANNEL.NONE ∨
            channel_order = IMAGE_CHANNEL.__MAX_CHANNEL then none
    else some true
  | .SDL_BIG_ENDIAN =>
    if channel_order = IMAGE_CHANNEL.R then
      if format.Rmask ≠ 0xFF ∨ format.Gmask ≠ 0 ∨
         format.Bmask ≠ 0 ∨ format.Amask ≠ 0 then some false else some true
    else if channel_order = IMAGE_CHANNEL.RG then
      if format.Rmask ≠ 0xFF00 ∨ format.Gmask ≠ 0xFF ∨
         format.Bmask ≠ 0 ∨ format.Amask ≠ 0 then some false else some true
    else if channel_order = IMAGE_CHANNEL.RGB then
      if format.Rmask ≠ 0xFF0000 ∨ format.Gmask ≠ 0xFF00 ∨
         format.Bmask ≠ 0xFF ∨ format.Amask ≠ 0 then some false else some true
    else if channel_order = IMAGE_CHANNEL.RGBA then
      if format.Rmask ≠ 0xFF000000 ∨ format.Gmask ≠ 0xFF0000 ∨
         format.Bmask ≠ 0xFF00 ∨ format.Amask ≠ 0xFF then some false else some true
    else if channel_order = IMAGE_CHANNEL.NONE ∨
            channel_order = IMAGE_CHANNEL.__MAX_CHANNEL then none
    else some true

/-- The block of `image::from_file` that fills `correct_format`: a copy of the surface
format (`memcpy`) whose `BytesPerPixel`/`BitsPerPixel` (both `Uint8`) and per-channel
masks and shifts are then assigned by the `switch` over the channel order; `none` at
`oclr_unreachable()`. -/
def correct_format (e : Endian) (format : SDL_PixelFormat)
    (channel_count type_size : Nat) (channel_order : IMAGE_CHANNEL) :
    Option SDL_PixelFormat :=
  let cf : SDL_PixelFormat :=
    { format with
      BytesPerPixel := (size_mul channel_count type_size) % 256
      BitsPerPixel := (size_mul (size_mul channel_count type_size) 8) % 256 }
  match e with
  | .SDL_LIL_ENDIAN =>
    if channel_order = IMAGE_CHANNEL.R then
      some { cf with Gshift := 0, Bshift := 0, Ashift := 0, Gmask := 0, Bmask := 0, Amask := 0,
                     Rmask := 0xFF, Rshift := 0 }
    else if channel_order = IMAGE_CHANNEL.RG then
      some { cf with Bshift := 0, Ashift := 0, Bmask := 0, Amask := 0,
                     Rmask := 0xFF, Rshift := 0, Gmask := 0xFF00, Gshift := 8 }
    else if channel_order = IMAGE_CHANNEL.RGB then
      some { cf with Ashift := 0, Amask := 0,
                     Rmask := 0xFF, Rshift := 0, Gmask := 0xFF00, Gshift := 8,
                     Bmask := 0xFF0000, Bshift := 16 }
    else if channel_order = IMAGE_CHANNEL.RGBA then
      some { cf with Rmask := 0xFF, Rshift := 0, Gmask := 0xFF00, Gshift := 8,
                     Bmask := 0xFF0000, Bshift := 16, Amask := 0xFF000000, Ashift := 24 }
    else if channel_order = IMAGE_CHANNEL.NONE ∨
            channel_order = IMAGE_CHANNEL.__MAX_CHANNEL then none
    else some cf
  | .SDL_BIG_ENDIAN =>
    if channel_order = IMAGE_CHANNEL.R then
      some { cf with Gshift := 0, Bshift := 0, Ashift := 0, Gmask := 0, Bmask := 0, Amask := 0,
                     Rmask := 0xFF, Rshift := 0 }
    else if channel_order = IMAGE_CHANNEL.RG then
      some { cf with Bshift := 0, Ashift := 0, Bmask := 0, Amask := 0,
                     Rmask := 0xFF00, Rshift := 8, Gmask := 0xFF, Gshift := 0 }
    else if channel_order = IMAGE_CHANNEL.RGB then
      some { cf with Ashift := 0, Amask := 0,
                     Rmask := 0xFF0000, Rshift := 16, Gmask := 0xFF00, Gshift := 8,
                     Bmask := 0xFF, Bshift := 0 }
    else if channel_order = IMAGE_CHANNEL.RGBA then
      some { cf with Rmask := 0xFF000000, Rshift := 24, Gmask := 0xFF0000, Gshift := 16,
                     Bmask := 0xFF00, Bshift := 8, Amask := 0xFF, Ashift := 0 }
    else if channel_order = IMAGE_CHANNEL.NONE ∨
            channel_order = IMAGE_CHANNEL.__MAX_CHANNEL then none
    else some cf

/-! ## The canonical mask assignment, as the specification words it -/

/-- The four masks `(Rmask, Gmask, Bmask, Amask)` of a pixel format. -/
def masks (format : SDL_PixelFormat) : Nat × Nat × Nat × Nat :=
  (format.Rmask, format.Gmask, format.Bmask, format.Amask)

/-- The canonical mask of channel `k` (R = 0, G = 1, B = 2, A = 3) in a layout of `n`
channels: an unused channel has mask 0; a used channel is the 8-bit mask of byte `k`
of the pixel in little-endian order and of byte `n - 1 - k` in big-endian (mirrored)
order. -/
def canonical_mask (e : Endian) (n k : Nat) : Nat :=
  if k < n then
    match e with
    | .SDL_LIL_ENDIAN => 0xFF * 2 ^ (8 * k)
    | .SDL_BIG_ENDIAN => 0xFF * 2 ^ (8 * (n - 1 - k))
  else 0

/-- The number of channels of the layouts R, RG, RGB, RGBA. -/
def layout_channels (L : IMAGE_CHANNEL) : Nat :=
  if L = IMAGE_CHANNEL.R then 1
  else if L = IMAGE_CHANNEL.RG then 2
  else if L = IMAGE_CHANNEL.RGB then 3
  else if L = IMAGE_CHANNEL.RGBA then 4
  else 0

/-- The canonical mask assignment `(R, G, B, A)` of a byte order and layout. -/
def canonical_masks (e : Endian) (L : IMAGE_CHANNEL) : Nat × Nat × Nat × Nat :=
  (canonical_mask e (layout_channels L) 0, canonical_mask e (layout_channels L) 1,
   canonical_mask e (layout_channels L) 2, canonical_mask e (layout_channels L) 3)

/-! ## Vectors, native formats, backing -/

/-- A `uint2`: two `unsigned int`. -/
structure uint2 where
  x : Nat
  y : Nat
  deriving DecidableEq, Repr

/-- A `size2`: two `size_t`. -/
structure size2 where
  x : Nat
  y : Nat
  deriving DecidableEq, Repr

/-- A `cl::ImageFormat`: a channel order code and a channel data type code; `(0, 0)` is
the unresolved descriptor. -/
structure ImageFormat where
  image_channel_order : Nat
  image_channel_data_type : Nat
  deriving DecidableEq, Repr

/-- The enumeration `image::BACKING`. -/
inductive BACKING where
  | BUFFER
  | IMAGE
  deriving DecidableEq, Repr

/-- Modelled from the spec: the class `image_type` of `image_types.h`, which is not under
src. It is built from a data type and a channel order, carries the `native` flag that
`create_buffer` sets, and its `pixel_size()` is the pixel stride
`typeByteSize * channelCount` (0 outside the tables). -/
structure image_type where
  data_type : IMAGE_TYPE
  channel_type : IMAGE_CHANNEL
  native : Bool
  deriving DecidableEq, Repr

/-- Modelled from the spec: `image_type::pixel_size()`, the byte size of one pixel. -/
def image_type.pixel_size (t : image_type) : Nat :=
  image_type_sizes.getD t.data_type 0 * image_channel_sizes.getD t.channel_type 0

/-! ## The buffer header (`image.h`) -/

/-- Modelled from the spec: the record `image::header` of `image.h`, which is not under
src. These are the four fields that `create_buffer` assigns, in the order of the
source, each holding the value assigned to it. -/
structure header where
  type : IMAGE_TYPE
  channel_order : IMAGE_CHANNEL
  width : Nat
  height : Nat
  deriving DecidableEq, Repr

/-- Modelled from the spec: the memory layout of `image::header` and the constant
`image::header_size()`, both declared in `image.h`, which is not under src. `store h m`
is the memory `m` after the fields of `h` were assigned through a `header*` to its
start, `load m` the header read back through such a pointer. The header lies in the
first `header_size` bytes, and `header_size` is a small compile-time constant. -/
structure header_layout where
  header_size : Nat
  store : header → (Nat → Nat) → (Nat → Nat)
  load : (Nat → Nat) → header
  header_size_small : header_size < UINT_RANGE
  load_store : ∀ h m, load (store h m) = h
  store_above : ∀ h m i, header_size ≤ i → store h m i = m i
  load_below : ∀ m n, (∀ i, i < header_size → m i = n i) → load m = load n

/-! ## The compute backend (`opencl`) and the decoder (SDL) -/

/-- Modelled from the spec: a backend 2-D image object, as `allocateImage2D` makes it:
its native format, its extent, the bytes handed over for the initial copy (if any) and
the region writes it received since. -/
structure image2d_object where
  image_channel_order : Nat
  image_channel_data_type : Nat
  width : Nat
  height : Nat
  initial : Option (Nat → Nat)
  writes : List (uint2 × uint2 × (Nat → Nat))

/-- Modelled from the spec: `opencl::buffer_object`, the resource behind the handle an
image owns. A linear buffer is `size` bytes of memory; the object returned for a 2-D
image has its `image_buffer` member null when the image could not be created. -/
inductive buffer_object where
  | buffer (size : Nat) (mem : Nat → Nat)
  | image2d (image_buffer : Option image2d_object)

/-- Modelled from the spec: what this unit consumes from the compute backend, whose
class `opencl` is not under src: the enumerated native formats (`get_image_formats`),
the native format resolved for a type and layout (`get_image_format`, unresolved when
a code is 0), whether a 2-D image of a format and extent can be created, the bytes a
newly allocated buffer happens to hold, and the address at which buffers are mapped. -/
structure opencl where
  get_image_formats : List ImageFormat
  get_image_format : IMAGE_TYPE → IMAGE_CHANNEL → ImageFormat
  image2d_available : ImageFormat → uint2 → Bool
  fresh : Nat → Nat
  map_address : Nat

/-- A decoded `SDL_Surface`: its format, extent and pixel bytes. -/
structure SDL_Surface where
  format : SDL_PixelFormat
  w : Nat
  h : Nat
  pixels : Option (Nat → Nat)

/-- The decoder collaborator: `IMG_Load` and `SDL_ConvertSurface`, each returning
`nullptr` (`none`) on failure. -/
structure decoder where
  IMG_Load : String → Option SDL_Surface
  SDL_ConvertSurface : SDL_Surface → SDL_PixelFormat → Option SDL_Surface

/-- What the unit is compiled and run against: the byte order branch, whether
`OCLRASTER_DEBUG` is defined, the header layout, the backend and the decoder. -/
structure env where
  endian : Endian
  debug : Bool
  hdr : header_layout
  ocl : opencl
  sdl : decoder

/-- The calls the unit makes on its collaborators, in the order it makes them. -/
inductive event where
  | oclr_error (msg : String)
  | IMG_Load (filename : String)
  | SDL_ConvertSurface
  | SDL_FreeSurface
  | create_buffer (size : Nat)
  | map_buffer
  | unmap_buffer (ptr : Int)
  | create_image2d_buffer (initial_copy : Bool) (image_channel_order : Nat)
      (image_channel_data_type : Nat) (width height : Nat)
  | write_buffer (offset size : Nat)
  | read_buffer (offset size : Nat)
  | write_image2d (offset size : uint2)
  | delete_buffer
  deriving DecidableEq, Repr

/-- Modelled from the spec: `opencl::create_buffer`, a new linear buffer of `size`
bytes. -/
def opencl.create_buffer (ocl : opencl) (size : Nat) : buffer_object :=
  .buffer size ocl.fresh

/-- Modelled from the spec: `opencl::create_image2d_buffer`; the returned object has a
null `image_buffer` when the backend cannot create the image. -/
def opencl.create_image2d_buffer (ocl : opencl) (image_channel_order : Nat)
    (image_channel_data_type : Nat) (width height : Nat) (pixels : Option (Nat → Nat)) :
    buffer_object :=
  if ocl.image2d_available ⟨image_channel_order, image_channel_data_type⟩ ⟨width, height⟩ then
    .image2d (some
      { image_channel_order := image_channel_order
        image_channel_data_type := image_channel_data_type
        width := width, height := height, initial := pixels, writes := [] })
  else .image2d none

/-- Modelled from the spec: `opencl::map_buffer` gives access to the bytes of a linear
buffer: the memory seen through the mapped pointer. -/
def opencl.map_buffer (b : buffer_object) : Nat → Nat :=
  match b with
  | .buffer _ mem => mem
  | .image2d _ => fun _ => 0

/-- Modelled from the spec: `opencl::unmap_buffer` ends a mapping; the buffer then holds
the bytes `mapped` that the mapped memory had at that point. -/
def opencl.unmap_buffer (b : buffer_object) (mapped : Nat → Nat) : buffer_object :=
  match b with
  | .buffer size _ => .buffer size mapped
  | .image2d o => .image2d o

/-- Modelled from the spec: `opencl::write_buffer(buffer, src, offset, size)` copies
`size` bytes from `src` to the bytes of a linear buffer starting at `offset`; a call
whose range does not lie in the buffer fails and changes nothing. -/
def opencl.write_buffer (b : buffer_object) (src : Nat → Nat) (offset size : Nat) :
    buffer_object :=
  match b with
  | .buffer sz mem =>
    if offset + size ≤ sz then
      .buffer sz (fun i => if offset ≤ i ∧ i < offset + size then src (i - offset) else mem i)
    else b
  | .image2d o => .image2d o

/-- Modelled from the spec: `opencl::read_buffer(dst, buffer, offset, size)` copies
`size` bytes of a linear buffer starting at `offset` to `dst`; a call whose range does
not lie in the buffer fails and changes nothing. -/
def opencl.read_buffer (dst : Nat → Nat) (b : buffer_object) (offset size : Nat) :
    Nat → Nat :=
  match b with
  | .buffer sz mem =>
    if offset + size ≤ sz then
      fun i => if i < size then mem (offset + i) else dst i
    else dst
  | .image2d _ => dst

/-- Modelled from the spec: `opencl::write_image2d(buffer, src, offset, size)` hands a
region write in pixel coordinates to the 2-D image object. -/
def opencl.write_image2d (b : buffer_object) (src : Nat → Nat) (offset size : uint2) :
    buffer_object :=
  match b with
  | .image2d (some o) => .image2d (some { o with writes := o.writes ++ [(offset, size, src)] })
  | other => other

/-! ## `image` -/

/-- The data members of an `image`; `buffer` is `none` for `nullptr`. -/
structure image where
  backing : BACKING
  img_type : image_type
  data_type : IMAGE_TYPE
  channel_order : IMAGE_CHANNEL
  size : uint2
  buffer : Option buffer_object
  native_format : ImageFormat

/-- Whether a native format has a zero code (`image_channel_data_type == 0 ||
image_channel_order == 0`). -/
def ImageFormat.unresolved (f : ImageFormat) : Bool :=
  f.image_channel_data_type == 0 || f.image_channel_order == 0

/-- The search loop of `create_buffer` over `ocl->get_image_formats()`. -/
def format_found (formats : List ImageFormat) (native_format : ImageFormat) : Bool :=
  formats.any fun format =>
    format.image_channel_order == native_format.image_channel_order &&
    format.image_channel_data_type == native_format.image_channel_data_type

/-- In `create_buffer`, source lines 275 to 292: a native format given at construction
is looked up among the formats of the backend and reset when it is not there. -/
def image.check_native_format (E : env) (img : image) : image × List event :=
  if img.native_format.image_channel_data_type ≠ 0 ∨
     img.native_format.image_channel_order ≠ 0 then
    if format_found E.ocl.get_image_formats img.native_format then (img, [])
    else
      -- not supported, reset and look for a compatible one
      ({ img with native_format := ⟨0, 0⟩ },
       [event.oclr_error "specified native image format (%X %X) not supported - checking for compatible image format ..."])
  else (img, [])

/-- In `create_buffer`, source lines 295 to 298: an unresolved native format is replaced
by the one the backend has for the type and channel order. -/
def image.find_native_format (E : env) (img : image) : image :=
  if img.native_format.image_channel_data_type = 0 ∨
     img.native_format.image_channel_order = 0 then
    { img with native_format := E.ocl.get_image_format img.data_type img.channel_order }
  else img

/-- In `create_buffer`, source lines 299 to 304: with the native format still
unresolved the image falls back to buffer backing. -/
def image.fall_back (img : image) : image × List event :=
  if img.native_format.image_channel_data_type = 0 ∨
     img.native_format.image_channel_order = 0 then
    ({ img with backing := BACKING.BUFFER },
     [event.oclr_error "image format is not natively supported - falling back to buffer based image backing!"])
  else (img, [])

/-- The part of `image::create_buffer` under `if(backing == BACKING::IMAGE)` (source
lines 273 to 305). -/
def image.negotiate_backing (E : env) (img : image) : image × List event :=
  if img.backing = BACKING.IMAGE then
    let checked := image.check_native_format E img
    let resolved := image.find_native_format E checked.1
    let settled := image.fall_back resolved
    (settled.1, checked.2 ++ settled.2)
  else (img, [])

/-- The value `data_size` of `create_buffer`: `size.x * size.y` is a product of two
`unsigned int`, which is then converted to `size_t` and multiplied by the two table
entries. -/
def data_size (size : uint2) (type_size channel_size : Nat) : Nat :=
  size_mul (size_mul (u32_mul size.x size.y) type_size) channel_size

/-- The effect of `fill_n(data_ptr, n, 0)` on memory, `data_ptr` at offset `start`. -/
def fill_zero (mem : Nat → Nat) (start n : Nat) : Nat → Nat :=
  fun i => if start ≤ i ∧ i < start + n then 0 else mem i

/-- The effect of `copy_n(src, n, data_ptr)` on memory, `data_ptr` at offset `start`. -/
def copy_bytes (src : Nat → Nat) (n : Nat) (mem : Nat → Nat) (start : Nat) : Nat → Nat :=
  fun i => if start ≤ i ∧ i < start + n then src (i - start) else mem i

/-- The part of `image::create_buffer` under `if(backing == BACKING::BUFFER)` and its
`else` (source lines 307 to 350). Indexing a size table outside its bounds is
undefined. -/
def image.allocate (E : env) (img : image) (pixels : Option (Nat → Nat)) :
    Option (image × List event) :=
  if img.backing = BACKING.BUFFER then
    match image_type_sizes[img.data_type]?, image_channel_sizes[img.channel_order]? with
    | some type_size, some channel_size =>
      let data_size := data_size img.size type_size channel_size
      let buffer_size := size_add E.hdr.header_size data_size
      let buffer := E.ocl.create_buffer buffer_size
      -- init buffer ...
      let mapped_ptr := opencl.map_buffer buffer
      let with_header :=
        E.hdr.store ⟨img.data_type, img.channel_order, img.size.x, img.size.y⟩ mapped_ptr
      let filled :=
        match pixels with
        | none => fill_zero with_header E.hdr.header_size data_size
        | some p => copy_bytes p data_size with_header E.hdr.header_size
      some ({ img with buffer := some (opencl.unmap_buffer buffer filled) },
            [event.create_buffer buffer_size, event.map_buffer,
             event.unmap_buffer E.ocl.map_address])
    | _, _ => none
  else
    let buffer := E.ocl.create_image2d_buffer img.native_format.image_channel_order
      img.native_format.image_channel_data_type img.size.x img.size.y pixels
    let created := event.create_image2d_buffer pixels.isSome
      img.native_format.image_channel_order img.native_format.image_channel_data_type
      img.size.x img.size.y
    let img2 : image :=
      { img with img_type := { img.img_type with native := true }, buffer := some buffer }
    match buffer with
    | .image2d none => some (img2, [created, event.oclr_error "image buffer creation failed!"])
    | _ => some (img2, [created])

/-- The function `image::create_buffer`. With `OCLRASTER_DEBUG` an invalid type or
channel order is reported and the function returns at once. -/
def image.create_buffer (E : env) (img : image) (pixels : Option (Nat → Nat)) :
    Option (image × List event) :=
  if E.debug ∧ img.data_type ≥ IMAGE_TYPE.__MAX_TYPE then
    some (img, [event.oclr_error "invalid image type: %u!"])
  else if E.debug ∧ img.channel_order ≥ IMAGE_CHANNEL.__MAX_CHANNEL then
    some (img, [event.oclr_error "invalid image channel order type: %u!"])
  else
    let negotiated := image.negotiate_backing E img
    match image.allocate E negotiated.1 pixels with
    | some (img2, events) => some (img2, negotiated.2 ++ events)
    | none => none

/-- The member initialiser list shared by the two constructors; `buffer` has no value yet
(taken as `nullptr`). -/
def image.init (width height : Nat) (backing : BACKING) (type : IMAGE_TYPE)
    (channel_order : IMAGE_CHANNEL) (native_format : ImageFormat) : image :=
  { backing := backing, img_type := ⟨type, channel_order, false⟩, data_type := type,
    channel_order := channel_order, size := ⟨width, height⟩, buffer := none,
    native_format := native_format }

/-- The constructor `image::image(width, height, backing, type, channel_order, pixels)`;
the members are initialised, with native format `(0, 0)`, and `create_buffer` runs. -/
def image.new (E : env) (width height : Nat) (backing : BACKING) (type : IMAGE_TYPE)
    (channel_order : IMAGE_CHANNEL) (pixels : Option (Nat → Nat)) :
    Option (image × List event) :=
  image.create_buffer E (image.init width height backing type channel_order ⟨0, 0⟩) pixels

/-- The constructor `image::image(width, height, type, channel_order, native_format,
pixels)`, which asks for image backing with a given native format. -/
def image.new_native (E : env) (width height : Nat) (type : IMAGE_TYPE)
    (channel_order : IMAGE_CHANNEL) (native_format : ImageFormat)
    (pixels : Option (Nat → Nat)) : Option (image × List event) :=
  image.create_buffer E
    (image.init width height BACKING.IMAGE type channel_order native_format) pixels

/-- The memory of a new buffer once `create_buffer` has stored the header `h` and `n`
bytes of pixel data in it. -/
def initial_memory (E : env) (h : header) (pixels : Option (Nat → Nat)) (n : Nat) :
    Nat → Nat :=
  match pixels with
  | none => fill_zero (E.hdr.store h E.ocl.fresh) E.hdr.header_size n
  | some p => copy_bytes p n (E.hdr.store h E.ocl.fresh) E.hdr.header_size

/-! ## Outcomes of a construction -/

/-- The construction ended with buffer backing: a linear buffer was requested from the
backend and is held by the image, and no 2-D image object was requested. -/
def allocated_linear_buffer (r : Option (image × List event)) : Prop :=
  ∃ img events size mem, r = some (img, events) ∧ img.backing = BACKING.BUFFER ∧
    img.buffer = some (.buffer size mem) ∧ event.create_buffer size ∈ events ∧
    ∀ ic o d w h, event.create_image2d_buffer ic o d w h ∉ events

/-- The buffer `b` is a linear buffer that holds the header record `h` at offset 0 and,
in the `n` bytes that follow the header, the first `n` bytes of `pixels`, or zeros when
there are no pixels. -/
def holds_header_and_pixels (E : env) (b : buffer_object) (h : header)
    (pixels : Option (Nat → Nat)) (n : Nat) : Prop :=
  ∃ size mem, b = .buffer size mem ∧ E.hdr.header_size + n ≤ size ∧ E.hdr.load mem = h ∧
    ∀ i, i < n → mem (E.hdr.header_size + i) = match pixels with
      | some p => p i
      | none => 0

/-- Whether an event is a call of the decoder. -/
def event.from_decoder : event → Bool
  | .IMG_Load _ => true
  | .SDL_ConvertSurface => true
  | .SDL_FreeSurface => true
  | _ => false

/-! ## `image::from_file` -/

/-- Byte `i` of the object representation of a 32-bit value. -/
def u32_byte (e : Endian) (v i : Nat) : Nat :=
  match e with
  | .SDL_LIL_ENDIAN => (v / 2 ^ (8 * i)) % 256
  | .SDL_BIG_ENDIAN => (v / 2 ^ (8 * (3 - i))) % 256

/-- The memory seen through a pointer to an `unsigned int` of value `v`. -/
def u32_bytes (e : Endian) (v : Nat) : Nat → Nat :=
  fun i => if i < 4 then u32_byte e v i else 0

/-- The lambda `fail_return` of `from_file`: it reports the error and returns the 1x1
`UINT_8` `RGBA` image built from `fail_pixel`. -/
def fail_return (E : env) (backing : BACKING) (error_msg : String) :
    Option (image × List event) :=
  let fail_pixel : Nat := 0xDEADBEEF
  match image.new E 1 1 backing IMAGE_TYPE.UINT_8 IMAGE_CHANNEL.RGBA
      (some (u32_bytes E.endian fail_pixel)) with
  | some (img, events) => some (img, event.oclr_error error_msg :: events)
  | none => none

/-- The condition of the conversion branch of `from_file`; `||` and `&&` evaluate
their right operand only when needed, so `is_correct_format` runs only for an 8-bit
type whose `BytesPerPixel` matches. -/
def needs_conversion (E : env) (format : SDL_PixelFormat) (type : IMAGE_TYPE)
    (channel_order : IMAGE_CHANNEL) (channel_count type_size : Nat) : Option Bool :=
  if type = IMAGE_TYPE.INT_8 ∨ type = IMAGE_TYPE.UINT_8 then
    if format.BytesPerPixel ≠ size_mul channel_count type_size then some true
    else
      match is_correct_format E.endian format channel_order with
      | some ok => some (!ok)
      | none => none
  else some false

/-- The end of `from_file`: the image is built from the surface, which is then freed. -/
def image_of_surface (E : env) (surface : SDL_Surface) (backing : BACKING)
    (type : IMAGE_TYPE) (channel_order : IMAGE_CHANNEL) (before : List event) :
    Option (image × List event) :=
  match image.new E surface.w surface.h backing type channel_order surface.pixels with
  | some (img, events) => some (img, before ++ events ++ [event.SDL_FreeSurface])
  | none => none

/-- The function `image::from_file`. -/
def image.from_file (E : env) (filename : String) (backing : BACKING) (type : IMAGE_TYPE)
    (channel_order : IMAGE_CHANNEL) : Option (image × List event) :=
  if type ≥ IMAGE_TYPE.__MAX_TYPE then fail_return E backing "invalid image type"
  else if channel_order ≥ IMAGE_CHANNEL.__MAX_CHANNEL then
    fail_return E backing "invalid channel type"
  else
    let prepend (events : List event) (r : Option (image × List event)) :
        Option (image × List event) :=
      r.map fun p => (p.1, events ++ p.2)
    match E.sdl.IMG_Load filename with
    | none => prepend [event.IMG_Load filename] (fail_return E backing "failed to load image")
    | some surface =>
      -- check if the loaded surface must be converted to match the requested channel order
      let format := surface.format
      match image_channel_sizes[channel_order]?, image_type_sizes[type]? with
      | some channel_count, some type_size =>
        match needs_conversion E format type channel_order channel_count type_size with
        | none => none
        | some true =>
          match correct_format E.endian format channel_count type_size channel_order with
          | none => none
          | some cf =>
            match E.sdl.SDL_ConvertSurface surface cf with
            | none =>
              prepend [event.IMG_Load filename, event.SDL_ConvertSurface]
                (fail_return E backing "failed to convert image to correct format")
            | some converted_surface =>
              image_of_surface E converted_surface backing type channel_order
                [event.IMG_Load filename, event.SDL_ConvertSurface, event.SDL_FreeSurface]
        | some false =>
          if type ≠ IMAGE_TYPE.INT_8 ∧ type ≠ IMAGE_TYPE.UINT_8 then
            prepend [event.IMG_Load filename]
              (fail_return E backing
                "automatic conversion to image types != INT_8 or UINT_8 not supported")
          else
            image_of_surface E surface backing type channel_order [event.IMG_Load filename]
      | _, _ => none

/-! ## Region I/O -/

/-- The function `image::compute_buffer_offset_and_size`: every product and sum is one of
`size_t`, the operands of type `unsigned int` being converted first. -/
def image.compute_buffer_offset_and_size (img : image) (offset size_ : uint2) : size2 :=
  let pixel_size := img.img_type.pixel_size
  let buffer_size :=
    if size_.x = UINT_ALL_ONES ∧ size_.y = UINT_ALL_ONES then 0
    else size_add (size_mul size_.y (size_mul img.size.x pixel_size))
                  (size_mul size_.x pixel_size)
  let buffer_offset :=
    size_add (size_mul offset.y (size_mul img.size.x pixel_size))
             (size_mul offset.x pixel_size)
  { x := buffer_offset, y := buffer_size }

/-- The function `image::write`: the image after the call and the backend call made. A
null `buffer` is handed to the backend as it is; nothing is stored then. -/
def image.write (img : image) (src : Nat → Nat) (offset size_ : uint2) :
    image × List event :=
  if img.backing = BACKING.BUFFER then
    let buffer_info := img.compute_buffer_offset_and_size offset size_
    ({ img with buffer := img.buffer.map fun b =>
          opencl.write_buffer b src buffer_info.x buffer_info.y },
     [event.write_buffer buffer_info.x buffer_info.y])
  else
    let write_size : uint2 :=
      if size_.x = UINT_ALL_ONES ∧ size_.y = UINT_ALL_ONES then img.size else size_
    ({ img with buffer := img.buffer.map fun b =>
          opencl.write_image2d b src offset write_size },
     [event.write_image2d offset write_size])

/-- The function `image::read`: the memory at `dst` after the call and the backend call
made. The branch for image backing is empty in the source. -/
def image.read (img : image) (dst : Nat → Nat) (offset size_ : uint2) :
    (Nat → Nat) × List event :=
  if img.backing = BACKING.BUFFER then
    let buffer_info := img.compute_buffer_offset_and_size offset size_
    (match img.buffer with
     | some b => opencl.read_buffer dst b buffer_info.x buffer_info.y
     | none => dst,
     [event.read_buffer buffer_info.x buffer_info.y])
  else (dst, [])

/-- The function `image::copy`: the image after the call and the calls made. All four
branches are empty in the source. -/
def image.copy (img : image) (src_img : image) (_src_offset _dst_offset _size : uint2) :
    image × List event :=
  if img.backing = BACKING.BUFFER then
    if src_img.backing = BACKING.BUFFER then
      (img, []) -- buffer -> buffer
    else
      (img, []) -- image -> buffer
  else
    if src_img.backing = BACKING.IMAGE then
      (img, []) -- image -> image
    else
      (img, []) -- buffer -> image

/-- The function `image::map`: the pointer returned and the backend call made. A pointer
is an address; `ocl->map_buffer` returns the address `map_address` of the backend. -/
def image.map (E : env) (img : image) (_offset _size : uint2) : Int × List event :=
  if img.backing = BACKING.BUFFER then
    let mapped_ptr : Int := E.ocl.map_address
    (mapped_ptr + E.hdr.header_size, [event.map_buffer])
  else
    (E.ocl.map_address, [event.map_buffer])

/-- The function `image::unmap`: the call of `ocl->unmap_buffer` it makes, with the
pointer it passes. -/
def image.unmap (E : env) (img : image) (mapped_ptr : Int) : List event :=
  [event.unmap_buffer
    (if img.backing = BACKING.BUFFER then mapped_ptr - E.hdr.header_size else mapped_ptr)]

/-- The function `image::modify_backing`: the value returned and the image after the
call. Both branches are empty in the source. -/
def image.modify_backing (img : image) (_new_backing : BACKING) : Bool × image :=
  if img.backing = BACKING.BUFFER then
    (false, img)
  else
    (false, img)

/-! ## Lifetime and accessors -/

/-- The destructor `image::~image`: the handles it passes to `ocl->delete_buffer` and the
calls it makes. `ocl` is the global backend pointer at that time, `none` for
`nullptr`. -/
def image.destructor (ocl : Option opencl) (img : image) : List buffer_object × List event :=
  match img.buffer, ocl with
  | some buffer, some _ => ([buffer], [event.delete_buffer])
  | _, _ => ([], [])

/-- The move constructor `image::image(image&& img)`: the new image and the source after
the move. -/
def image.move (img : image) : image × image :=
  ({ backing := img.backing, img_type := img.img_type, data_type := img.data_type,
     channel_order := img.channel_order, size := img.size, buffer := img.buffer,
     native_format := img.native_format },
   { img with buffer := none })

/-- The function `image::get_backing`. -/
def image.get_backing (img : image) : BACKING := img.backing

/-- The function `image::get_buffer`; `none` is `nullptr`. -/
def image.get_buffer (img : image) : Option buffer_object := img.buffer

/-- The function `image::get_native_format`. -/
def image.get_native_format (img : image) : ImageFormat := img.native_format

/-! ## Outcomes of `from_file` and of a region operation -/

/-- The result `r` is the sentinel image: an error was reported (after the calls
`before`) and the image returned is the one the constructor makes of
`(1, 1, backing, UINT_8, RGBA, &fail_pixel)`, of size 1x1, type `UINT_8` and channel
order `RGBA`. -/
def returns_sentinel (E : env) (backing : BACKING) (before : List event)
    (r : Option (image × List event)) : Prop :=
  ∃ img events msg, r = some (img, before ++ event.oclr_error msg :: events) ∧
    image.new E 1 1 backing IMAGE_TYPE.UINT_8 IMAGE_CHANNEL.RGBA
      (some (u32_bytes E.endian 0xDEADBEEF)) = some (img, events) ∧
    img.size = ⟨1, 1⟩ ∧ img.data_type = IMAGE_TYPE.UINT_8 ∧
    img.channel_order = IMAGE_CHANNEL.RGBA

/-- The calls of an operation signal a failure: an error is reported. The operations of
this unit return `void` and throw nothing, so a report through `oclr_error` is the one
way they have to signal anything. -/
def signals_failure (events : List event) : Prop :=
  ∃ msg, event.oclr_error msg ∈ events

/-- The construction ended with every requested 2-D image object, and the native format
of an image-backed result, being of a format that the backend lists. -/
def native_format_listed (E : env) (r : Option (image × List event)) : Prop :=
  ∃ img events, r = some (img, events) ∧
    (img.backing = BACKING.IMAGE → img.native_format ∈ E.ocl.get_image_formats) ∧
    ∀ ic o d w h, event.create_image2d_buffer ic o d w h ∈ events →
      (⟨o, d⟩ : ImageFormat) ∈ E.ocl.get_image_formats

/-! ## A concrete environment

A little-endian build against a backend that has one native format (for `UINT_8`
`RGBA`), with a 16-byte header of four 32-bit little-endian fields. It is the
environment at which the theorems are instantiated. -/

/-- Byte `i` of a 32-bit field stored in little-endian order; the last byte takes what
is left of the value. -/
def field_byte (v i : Nat) : Nat :=
  if i < 3 then (v / 2 ^ (8 * i)) % 256 else v / 2 ^ 24

/-- The 32-bit little-endian field read at offset `p`. -/
def field_value (m : Nat → Nat) (p : Nat) : Nat :=
  m p % 256 + 256 * (m (p + 1) % 256) + 65536 * (m (p + 2) % 256) + 16777216 * m (p + 3)

/-- Storing a header as four consecutive 32-bit fields. -/
def demo_store (h : header) (m : Nat → Nat) : Nat → Nat :=
  fun i =>
    if i < 4 then field_byte h.type i
    else if i < 8 then field_byte h.channel_order (i - 4)
    else if i < 12 then field_byte h.width (i - 8)
    else if i < 16 then field_byte h.height (i - 12)
    else m i

/-- Reading a header stored as four consecutive 32-bit fields. -/
def demo_load (m : Nat → Nat) : header :=
  ⟨field_value m 0, field_value m 4, field_value m 8, field_value m 12⟩

/-- A 16-byte header layout. -/
def demo_layout : header_layout where
  header_size := 16
  store := demo_store
  load := demo_load
  header_size_small := by decide
  load_store := by
    intro h m
    have field_value_byte : ∀ v : Nat,
        (v / 2 ^ (8 * 0)) % 256 + 256 * ((v / 2 ^ (8 * 1)) % 256) +
          65536 * ((v / 2 ^ (8 * 2)) % 256) + 16777216 * (v / 2 ^ 24) = v := by
      intro v
      norm_num
      omega
    have e1 := field_value_byte h.type
    have e2 := field_value_byte h.channel_order
    have e3 := field_value_byte h.width
    have e4 := field_value_byte h.height
    simp only [demo_load, demo_store, field_value, field_byte]
    norm_num at e1 e2 e3 e4 ⊢
    cases h
    simp_all
  store_above := by
    intro h m i hi
    have h1 : ¬ i < 4 := by omega
    have h2 : ¬ i < 8 := by omega
    have h3 : ¬ i < 12 := by omega
    have h4 : ¬ i < 16 := by omega
    simp [demo_store, h1, h2, h3, h4]
  load_below := by
    intro m n h
    simp [demo_load, field_value, h]

/-- A backend whose only native format is that of `UINT_8` `RGBA`. -/
def demo_ocl : opencl where
  get_image_formats := [⟨0x10B5, 0x10DA⟩]
  get_image_format := fun t c =>
    if t = IMAGE_TYPE.UINT_8 ∧ c = IMAGE_CHANNEL.RGBA then ⟨0x10B5, 0x10DA⟩ else ⟨0, 0⟩
  image2d_available := fun _ _ => true
  fresh := fun _ => 0xCD
  map_address := 0x10000

/-- A decoder that knows one file, a 2x2 surface in little-endian RGBA. -/
def demo_sdl : decoder where
  IMG_Load := fun filename =>
    if filename = "image.png" then
      some { format := ⟨0, 32, 4, 0xFF, 0xFF00, 0xFF0000, 0xFF000000, 0, 0, 0, 0, 0, 8, 16, 24⟩
             w := 2, h := 2, pixels := some (fun i => i % 256) }
    else none
  SDL_ConvertSurface := fun surface cf => some { surface with format := cf }

/-- The concrete environment. -/
def demo_env : env where
  endian := .SDL_LIL_ENDIAN
  debug := false
  hdr := demo_layout
  ocl := demo_ocl
  sdl := demo_sdl

/-- A backend like the one of the concrete environment that cannot create any 2-D image
object. -/
def demo_ocl_without_images : opencl :=
  { demo_ocl with image2d_available := fun _ _ => false }

/-- The concrete environment with the backend that cannot create 2-D image objects. -/
def demo_env_without_images : env :=
  { demo_env with ocl := demo_ocl_without_images }

/-! ## Theorems -/


/-- A channel order among R, RG, RGB, RGBA is one of the four values. -/
theorem layout_cases (L : IMAGE_CHANNEL)
    (hL : IMAGE_CHANNEL.R ≤ L ∧ L ≤ IMAGE_CHANNEL.RGBA) :
    L = 1 ∨ L = 2 ∨ L = 3 ∨ L = 4 := by
  have hn : ∀ n : Nat, 1 ≤ n → n ≤ 4 → n = 1 ∨ n = 2 ∨ n = 3 ∨ n = 4 := by
    intro n h1 h4
    omega
  exact hn L hL.1 hL.2

/-- C1: for both byte orders and each layout R, RG, RGB, RGBA, `is_correct_format`
returns, and returns `true` exactly when the four masks of the format are the
canonical assignment of that byte order and layout; every other 4-tuple of masks
gives `false`. -/
theorem is_correct_format_iff_canonical (e : Endian) (format : SDL_PixelFormat)
    (L : IMAGE_CHANNEL) (hL : IMAGE_CHANNEL.R ≤ L ∧ L ≤ IMAGE_CHANNEL.RGBA) :
    is_correct_format e format L = some (decide (masks format = canonical_masks e L)) := by
  rcases layout_cases L hL with h | h | h | h <;> subst h <;> cases e <;>
    simp [is_correct_format, masks, canonical_masks, canonical_mask, layout_channels,
      IMAGE_CHANNEL.R, IMAGE_CHANNEL.RG, IMAGE_CHANNEL.RGB, IMAGE_CHANNEL.RGBA,
      IMAGE_CHANNEL.NONE, IMAGE_CHANNEL.__MAX_CHANNEL] <;>
    split_ifs with hm <;> simp <;> tauto

/-- C1 at a concrete input: the little-endian RGBA validator on a format whose red and
blue masks are swapped. -/
theorem is_correct_format_iff_canonical_witness :
    (IMAGE_CHANNEL.R ≤ IMAGE_CHANNEL.RGBA ∧ IMAGE_CHANNEL.RGBA ≤ IMAGE_CHANNEL.RGBA) ∧
    is_correct_format .SDL_LIL_ENDIAN
      ⟨0, 32, 4, 0xFF0000, 0xFF00, 0xFF, 0xFF000000, 0, 0, 0, 0, 16, 8, 0, 24⟩
      IMAGE_CHANNEL.RGBA =
      some (decide (masks ⟨0, 32, 4, 0xFF0000, 0xFF00, 0xFF, 0xFF000000, 0, 0, 0, 0, 16, 8, 0, 24⟩
        = canonical_masks .SDL_LIL_ENDIAN IMAGE_CHANNEL.RGBA)) :=
  ⟨by decide, is_correct_format_iff_canonical _ _ _ (by decide)⟩

/-- C2: for both byte orders, each layout R, RG, RGB, RGBA and every input format (for
any channel count and type size), the corrected format that `from_file` builds exists
and `is_correct_format` accepts it for the same byte order and layout. -/
theorem correct_format_is_correct (e : Endian) (format : SDL_PixelFormat)
    (channel_count type_size : Nat) (L : IMAGE_CHANNEL)
    (hL : IMAGE_CHANNEL.R ≤ L ∧ L ≤ IMAGE_CHANNEL.RGBA) :
    ∃ cf, correct_format e format channel_count type_size L = some cf ∧
      is_correct_format e cf L = some true := by
  rcases layout_cases L hL with h | h | h | h <;> subst h <;> cases e <;>
    simp [correct_format, is_correct_format, IMAGE_CHANNEL.R, IMAGE_CHANNEL.RG,
      IMAGE_CHANNEL.RGB, IMAGE_CHANNEL.RGBA, IMAGE_CHANNEL.NONE, IMAGE_CHANNEL.__MAX_CHANNEL]

/-- C2 at a concrete input: a big-endian RGB request on a format the validator rejects. -/
theorem correct_format_is_correct_witness :
    (IMAGE_CHANNEL.R ≤ IMAGE_CHANNEL.RGB ∧ IMAGE_CHANNEL.RGB ≤ IMAGE_CHANNEL.RGBA) ∧
    is_correct_format .SDL_BIG_ENDIAN
      ⟨0, 32, 4, 0xFF, 0xFF00, 0xFF0000, 0xFF000000, 0, 0, 0, 0, 0, 8, 16, 24⟩
      IMAGE_CHANNEL.RGB = some false ∧
    ∃ cf, correct_format .SDL_BIG_ENDIAN
        ⟨0, 32, 4, 0xFF, 0xFF00, 0xFF0000, 0xFF000000, 0, 0, 0, 0, 0, 8, 16, 24⟩
        3 1 IMAGE_CHANNEL.RGB = some cf ∧
      is_correct_format .SDL_BIG_ENDIAN cf IMAGE_CHANNEL.RGB = some true :=
  ⟨by decide, by decide, correct_format_is_correct _ _ _ _ _ (by decide)⟩

/-! ### Construction -/

/-- Both size tables have an entry for every value below the maximum marker. -/
theorem table_entries (type : IMAGE_TYPE) (channel_order : IMAGE_CHANNEL)
    (ht : type < IMAGE_TYPE.__MAX_TYPE) (hc : channel_order < IMAGE_CHANNEL.__MAX_CHANNEL) :
    ∃ ts cs, image_type_sizes[type]? = some ts ∧ image_channel_sizes[channel_order]? = some cs := by
  have h1 : type < image_type_sizes.length := ht
  have h2 : channel_order < image_channel_sizes.length := hc
  exact ⟨image_type_sizes[type], image_channel_sizes[channel_order],
    List.getElem?_eq_getElem h1, List.getElem?_eq_getElem h2⟩

/-- What `allocate` does for a buffer-backed image whose type and channel order have
table entries. -/
theorem allocate_buffer (E : env) (img : image) (pixels : Option (Nat → Nat)) (ts cs : Nat)
    (hb : img.backing = BACKING.BUFFER)
    (hts : image_type_sizes[img.data_type]? = some ts)
    (hcs : image_channel_sizes[img.channel_order]? = some cs) :
    image.allocate E img pixels =
      some ({ img with buffer := some (.buffer
                (size_add E.hdr.header_size (data_size img.size ts cs))
                (initial_memory E ⟨img.data_type, img.channel_order, img.size.x, img.size.y⟩
                  pixels (data_size img.size ts cs))) },
            [event.create_buffer (size_add E.hdr.header_size (data_size img.size ts cs)),
             event.map_buffer, event.unmap_buffer E.ocl.map_address]) := by
  cases pixels <;>
    simp [image.allocate, hb, hts, hcs, opencl.create_buffer, opencl.map_buffer,
      opencl.unmap_buffer, initial_memory]

/-- Without an invalid type or channel order, `create_buffer` is the negotiation of the
backing followed by the allocation. -/
theorem create_buffer_valid (E : env) (img : image) (pixels : Option (Nat → Nat))
    (ht : img.data_type < IMAGE_TYPE.__MAX_TYPE)
    (hc : img.channel_order < IMAGE_CHANNEL.__MAX_CHANNEL) :
    image.create_buffer E img pixels =
      match image.allocate E (image.negotiate_backing E img).1 pixels with
      | some (img2, events) => some (img2, (image.negotiate_backing E img).2 ++ events)
      | none => none := by
  have h1 : ¬ (img.data_type ≥ IMAGE_TYPE.__MAX_TYPE) := Nat.not_le.mpr ht
  have h2 : ¬ (img.channel_order ≥ IMAGE_CHANNEL.__MAX_CHANNEL) := Nat.not_le.mpr hc
  simp [image.create_buffer, h1, h2]

/-- The check of a given native format changes only the native format. -/
theorem check_native_format_frame (E : env) (img : image) :
    (image.check_native_format E img).1.backing = img.backing ∧
    (image.check_native_format E img).1.data_type = img.data_type ∧
    (image.check_native_format E img).1.channel_order = img.channel_order ∧
    (image.check_native_format E img).1.size = img.size ∧
    (image.check_native_format E img).1.img_type = img.img_type ∧
    (image.check_native_format E img).1.buffer = img.buffer := by
  unfold image.check_native_format
  split_ifs <;> simp

/-- The query for a native format changes only the native format. -/
theorem find_native_format_frame (E : env) (img : image) :
    (image.find_native_format E img).backing = img.backing ∧
    (image.find_native_format E img).data_type = img.data_type ∧
    (image.find_native_format E img).channel_order = img.channel_order ∧
    (image.find_native_format E img).size = img.size ∧
    (image.find_native_format E img).img_type = img.img_type ∧
    (image.find_native_format E img).buffer = img.buffer := by
  unfold image.find_native_format
  split_ifs <;> simp

/-- The fallback changes only the backing. -/
theorem fall_back_frame (img : image) :
    (image.fall_back img).1.native_format = img.native_format ∧
    (image.fall_back img).1.data_type = img.data_type ∧
    (image.fall_back img).1.channel_order = img.channel_order ∧
    (image.fall_back img).1.size = img.size ∧
    (image.fall_back img).1.img_type = img.img_type ∧
    (image.fall_back img).1.buffer = img.buffer := by
  unfold image.fall_back
  split_ifs <;> simp

/-- The negotiation leaves type, channel order, size and buffer as they are. -/
theorem negotiate_backing_frame (E : env) (img : image) :
    (image.negotiate_backing E img).1.data_type = img.data_type ∧
    (image.negotiate_backing E img).1.channel_order = img.channel_order ∧
    (image.negotiate_backing E img).1.size = img.size ∧
    (image.negotiate_backing E img).1.img_type = img.img_type ∧
    (image.negotiate_backing E img).1.buffer = img.buffer := by
  unfold image.negotiate_backing
  split_ifs
  · obtain ⟨_, a1, a2, a3, a4, a5⟩ := check_native_format_frame E img
    obtain ⟨_, b1, b2, b3, b4, b5⟩ :=
      find_native_format_frame E (image.check_native_format E img).1
    obtain ⟨_, c1, c2, c3, c4, c5⟩ :=
      fall_back_frame (image.find_native_format E (image.check_native_format E img).1)
    simp only [c1, c2, c3, c4, c5, b1, b2, b3, b4, b5, a1, a2, a3, a4, a5, and_self]
  · simp

/-- The negotiation does nothing to a buffer-backed image. -/
theorem negotiate_backing_buffer (E : env) (img : image) (hb : img.backing = BACKING.BUFFER) :
    image.negotiate_backing E img = (img, []) := by
  simp [image.negotiate_backing, hb]

/-- A request for image backing ends with buffer backing when the backend resolves no
native format for the type and channel order and the image carries no native format
that the backend lists. -/
theorem negotiate_backing_falls_back (E : env) (img : image)
    (hb : img.backing = BACKING.IMAGE)
    (hq : (E.ocl.get_image_format img.data_type img.channel_order).unresolved = true)
    (hn : img.native_format.unresolved = true ∨
          format_found E.ocl.get_image_formats img.native_format = false) :
    (image.negotiate_backing E img).1.backing = BACKING.BUFFER := by
  simp only [ImageFormat.unresolved, Bool.or_eq_true, beq_iff_eq] at hq hn
  simp only [image.negotiate_backing, hb, if_true]
  have key : (image.find_native_format E (image.check_native_format E img).1).native_format
      = E.ocl.get_image_format img.data_type img.channel_order := by
    unfold image.find_native_format image.check_native_format
    split_ifs <;> simp_all
  unfold image.fall_back
  rw [key]
  simp [hq]

/-- What `create_buffer` does whenever the negotiated backing is the buffer: one linear
buffer of `header_size() + data_size` bytes is created, mapped, initialised and
unmapped. -/
theorem create_buffer_of_buffer (E : env) (img : image) (pixels : Option (Nat → Nat))
    (ht : img.data_type < IMAGE_TYPE.__MAX_TYPE)
    (hc : img.channel_order < IMAGE_CHANNEL.__MAX_CHANNEL)
    (hb : (image.negotiate_backing E img).1.backing = BACKING.BUFFER) :
    ∃ ts cs, image_type_sizes[img.data_type]? = some ts ∧
      image_channel_sizes[img.channel_order]? = some cs ∧
      image.create_buffer E img pixels =
        some ({ (image.negotiate_backing E img).1 with buffer := some (.buffer
                  (size_add E.hdr.header_size (data_size img.size ts cs))
                  (initial_memory E ⟨img.data_type, img.channel_order, img.size.x, img.size.y⟩
                    pixels (data_size img.size ts cs))) },
              (image.negotiate_backing E img).2 ++
                [event.create_buffer (size_add E.hdr.header_size (data_size img.size ts cs)),
                 event.map_buffer, event.unmap_buffer E.ocl.map_address]) := by
  obtain ⟨ts, cs, hts, hcs⟩ := table_entries img.data_type img.channel_order ht hc
  obtain ⟨f1, f2, f3, _, _⟩ := negotiate_backing_frame E img
  refine ⟨ts, cs, hts, hcs, ?_⟩
  rw [create_buffer_valid E img pixels ht hc,
    allocate_buffer E (image.negotiate_backing E img).1 pixels ts cs hb
      (by rw [f1]; exact hts) (by rw [f2]; exact hcs)]
  simp only [f1, f2, f3]

/-- What `allocate` does for an image-backed image: the image object is requested from
the backend with the native format, the extent and the pixels. -/
theorem allocate_image (E : env) (img : image) (pixels : Option (Nat → Nat))
    (hb : img.backing = BACKING.IMAGE) :
    ∃ events, image.allocate E img pixels =
      some ({ img with
                img_type := { img.img_type with native := true }
                buffer := some (E.ocl.create_image2d_buffer img.native_format.image_channel_order
                  img.native_format.image_channel_data_type img.size.x img.size.y pixels) },
            event.create_image2d_buffer pixels.isSome img.native_format.image_channel_order
              img.native_format.image_channel_data_type img.size.x img.size.y :: events) ∧
      ∀ e ∈ events, ∃ msg, e = event.oclr_error msg := by
  unfold image.allocate
  simp only [hb, reduceCtorEq, if_false]
  split
  · exact ⟨[event.oclr_error "image buffer creation failed!"], rfl, by simp⟩
  · exact ⟨[], rfl, by simp⟩

/-- The negotiation only reports errors; it calls neither the backend allocators nor the
decoder. -/
theorem negotiate_backing_events (E : env) (img : image) :
    ∀ e ∈ (image.negotiate_backing E img).2, ∃ msg, e = event.oclr_error msg := by
  have h1 : ∀ i : image, ∀ e ∈ (image.check_native_format E i).2,
      ∃ msg, e = event.oclr_error msg := by
    intro i e he
    unfold image.check_native_format at he
    split_ifs at he <;> simp at he
    exact ⟨_, he⟩
  have h2 : ∀ i : image, ∀ e ∈ (image.fall_back i).2, ∃ msg, e = event.oclr_error msg := by
    intro i e he
    unfold image.fall_back at he
    split_ifs at he <;> simp at he
    exact ⟨_, he⟩
  intro e he
  unfold image.negotiate_backing at he
  split_ifs at he
  · rcases List.mem_append.mp he with h | h
    · exact h1 _ e h
    · exact h2 _ e h
  · simp at he

/-- The negotiated backing of an image that asks for the buffer is the buffer, and the
negotiation never turns buffer backing into image backing. -/
theorem negotiate_backing_image (E : env) (img : image)
    (h : (image.negotiate_backing E img).1.backing = BACKING.IMAGE) :
    img.backing = BACKING.IMAGE := by
  by_contra hb
  have hb2 : img.backing = BACKING.BUFFER := by
    cases hbk : img.backing
    · rfl
    · exact absurd hbk hb
  rw [negotiate_backing_buffer E img hb2, hb2] at h
  exact absurd h (by decide)

/-- The entries of the size tables are at most 8 and 4. -/
theorem table_bounds (type : IMAGE_TYPE) (channel_order : IMAGE_CHANNEL) (ts cs : Nat)
    (hts : image_type_sizes[type]? = some ts)
    (hcs : image_channel_sizes[channel_order]? = some cs) : ts ≤ 8 ∧ cs ≤ 4 := by
  have h1 : ∀ x ∈ image_type_sizes, x ≤ 8 := by decide
  have h2 : ∀ x ∈ image_channel_sizes, x ≤ 4 := by decide
  exact ⟨h1 ts (List.getElem?_mem hts), h2 cs (List.getElem?_mem hcs)⟩

/-- The value `data_size` is below `2 ^ 37`, so adding `header_size()` to it does not
wrap. -/
theorem buffer_size_exact (E : env) (size : uint2) (ts cs : Nat) (h8 : ts ≤ 8) (h4 : cs ≤ 4) :
    size_add E.hdr.header_size (data_size size ts cs) =
      E.hdr.header_size + data_size size ts cs := by
  have hs : E.hdr.header_size < 2 ^ 32 := E.hdr.header_size_small
  have hu : u32_mul size.x size.y < 2 ^ 32 := Nat.mod_lt _ (by decide)
  have h1 : u32_mul size.x size.y * ts ≤ 2 ^ 32 * 8 :=
    Nat.mul_le_mul (Nat.le_of_lt hu) h8
  have e1 : size_mul (u32_mul size.x size.y) ts = u32_mul size.x size.y * ts :=
    Nat.mod_eq_of_lt (Nat.lt_of_le_of_lt h1 (by decide))
  have h2 : u32_mul size.x size.y * ts * cs ≤ 2 ^ 32 * 8 * 4 := Nat.mul_le_mul h1 h4
  have e2 : data_size size ts cs = u32_mul size.x size.y * ts * cs := by
    unfold data_size
    rw [e1]
    exact Nat.mod_eq_of_lt (Nat.lt_of_le_of_lt h2 (by decide))
  unfold size_add SIZE_RANGE
  apply Nat.mod_eq_of_lt
  rw [e2]
  omega

/-- Whenever the negotiated backing is the buffer, the construction ends with a linear
buffer and without a 2-D image object. -/
theorem create_buffer_allocates_linear (E : env) (img : image) (pixels : Option (Nat → Nat))
    (ht : img.data_type < IMAGE_TYPE.__MAX_TYPE)
    (hc : img.channel_order < IMAGE_CHANNEL.__MAX_CHANNEL)
    (hb : (image.negotiate_backing E img).1.backing = BACKING.BUFFER) :
    allocated_linear_buffer (image.create_buffer E img pixels) := by
  obtain ⟨ts, cs, _, _, h⟩ := create_buffer_of_buffer E img pixels ht hc hb
  refine ⟨_, _, _, _, h, hb, rfl, by simp, ?_⟩
  intro ic o d w hh hmem
  rcases List.mem_append.mp hmem with h1 | h1
  · obtain ⟨msg, hmsg⟩ := negotiate_backing_events E img _ h1
    exact absurd hmsg (by simp)
  · simp at h1

/-- C4: an image constructed with backing preference `IMAGE` for a valid type and channel
order for which `get_image_format` returns an unresolved descriptor (a zero code) ends
with backing `BUFFER`, holding a linear buffer; `create_buffer` of the backend was
called and `create_image2d_buffer` was not. The same holds for the constructor taking
a native format when that format is unresolved or not among `get_image_formats`. -/
theorem image_preference_falls_back_to_buffer (E : env) (width height : Nat)
    (type : IMAGE_TYPE) (channel_order : IMAGE_CHANNEL) (pixels : Option (Nat → Nat))
    (ht : type < IMAGE_TYPE.__MAX_TYPE) (hc : channel_order < IMAGE_CHANNEL.__MAX_CHANNEL)
    (hq : (E.ocl.get_image_format type channel_order).unresolved = true) :
    allocated_linear_buffer
      (image.new E width height BACKING.IMAGE type channel_order pixels) ∧
    ∀ native_format : ImageFormat,
      native_format.unresolved = true ∨
        format_found E.ocl.get_image_formats native_format = false →
      allocated_linear_buffer
        (image.new_native E width height type channel_order native_format pixels) := by
  constructor
  · exact create_buffer_allocates_linear E _ pixels ht hc
      (negotiate_backing_falls_back E _ rfl hq (Or.inl rfl))
  · intro native_format hn
    exact create_buffer_allocates_linear E _ pixels ht hc
      (negotiate_backing_falls_back E _ rfl hq hn)

/-- C4 at a concrete input: a 2x2 `FLOAT_32` `RGB` image, for which the backend of the
concrete environment has no native format. -/
theorem image_preference_falls_back_to_buffer_witness :
    (IMAGE_TYPE.FLOAT_32 < IMAGE_TYPE.__MAX_TYPE ∧
     IMAGE_CHANNEL.RGB < IMAGE_CHANNEL.__MAX_CHANNEL ∧
     (demo_env.ocl.get_image_format IMAGE_TYPE.FLOAT_32 IMAGE_CHANNEL.RGB).unresolved = true) ∧
    (allocated_linear_buffer
      (image.new demo_env 2 2 BACKING.IMAGE IMAGE_TYPE.FLOAT_32 IMAGE_CHANNEL.RGB none) ∧
    ∀ native_format : ImageFormat,
      native_format.unresolved = true ∨
        format_found demo_env.ocl.get_image_formats native_format = false →
      allocated_linear_buffer
        (image.new_native demo_env 2 2 IMAGE_TYPE.FLOAT_32 IMAGE_CHANNEL.RGB native_format
          none)) :=
  ⟨⟨by decide, by decide, by decide⟩,
   image_preference_falls_back_to_buffer demo_env 2 2 IMAGE_TYPE.FLOAT_32 IMAGE_CHANNEL.RGB none
     (by decide) (by decide) (by decide)⟩

/-- The header is read back from an initialised buffer. -/
theorem initial_memory_load (E : env) (h : header) (pixels : Option (Nat → Nat)) (n : Nat) :
    E.hdr.load (initial_memory E h pixels n) = h := by
  have hb : ∀ i, i < E.hdr.header_size →
      initial_memory E h pixels n i = E.hdr.store h E.ocl.fresh i := by
    intro i hi
    have hlt : ¬ E.hdr.header_size ≤ i := Nat.not_le.mpr hi
    cases pixels <;> simp [initial_memory, fill_zero, copy_bytes, hlt]
  rw [E.hdr.load_below _ _ hb, E.hdr.load_store]

/-- The bytes after the header of an initialised buffer are the pixels, or zeros. -/
theorem initial_memory_data (E : env) (h : header) (pixels : Option (Nat → Nat)) (n i : Nat)
    (hi : i < n) :
    initial_memory E h pixels n (E.hdr.header_size + i) = match pixels with
      | some p => p i
      | none => 0 := by
  cases pixels <;> simp [initial_memory, fill_zero, copy_bytes, hi]

/-- The outcome of `create_buffer` for a valid type and channel order: it returns; type,
channel order and size are kept; it makes no call of the decoder; buffer backing is
kept; a buffer-backed result holds the header and the pixel bytes; an image-backed
result was asked for and holds the object made by `create_image2d_buffer`. -/
theorem create_buffer_outcome (E : env) (img0 : image) (pixels : Option (Nat → Nat))
    (ht : img0.data_type < IMAGE_TYPE.__MAX_TYPE)
    (hc : img0.channel_order < IMAGE_CHANNEL.__MAX_CHANNEL) :
    ∃ img events ts cs, image.create_buffer E img0 pixels = some (img, events) ∧
      image_type_sizes[img0.data_type]? = some ts ∧
      image_channel_sizes[img0.channel_order]? = some cs ∧
      img.data_type = img0.data_type ∧ img.channel_order = img0.channel_order ∧
      img.size = img0.size ∧
      (∀ e ∈ events, e.from_decoder = false) ∧
      (img0.backing = BACKING.BUFFER → img.backing = BACKING.BUFFER) ∧
      (img.backing = BACKING.BUFFER → ∃ b, img.buffer = some b ∧
        holds_header_and_pixels E b
          ⟨img0.data_type, img0.channel_order, img0.size.x, img0.size.y⟩ pixels
          (data_size img0.size ts cs)) ∧
      (img.backing = BACKING.IMAGE → img0.backing = BACKING.IMAGE ∧
        img.buffer = some (E.ocl.create_image2d_buffer img.native_format.image_channel_order
          img.native_format.image_channel_data_type img0.size.x img0.size.y pixels)) := by
  obtain ⟨f1, f2, f3, _, _⟩ := negotiate_backing_frame E img0
  have hneg : ∀ e ∈ (image.negotiate_backing E img0).2, e.from_decoder = false := by
    intro e he
    obtain ⟨msg, hmsg⟩ := negotiate_backing_events E img0 e he
    rw [hmsg]
    rfl
  cases hb : (image.negotiate_backing E img0).1.backing
  · -- buffer
    obtain ⟨ts, cs, hts, hcs, h⟩ := create_buffer_of_buffer E img0 pixels ht hc hb
    obtain ⟨h8, h4⟩ := table_bounds _ _ ts cs hts hcs
    refine ⟨_, _, ts, cs, h, hts, hcs, f1, f2, f3, ?_, fun _ => hb, ?_, ?_⟩
    · intro e he
      rcases List.mem_append.mp he with h1 | h1
      · exact hneg e h1
      · simp at h1
        rcases h1 with h1 | h1 | h1 <;> rw [h1] <;> rfl
    · intro _
      refine ⟨_, rfl, _, _, rfl, ?_, initial_memory_load E _ pixels _, ?_⟩
      · rw [buffer_size_exact E img0.size ts cs h8 h4]
      · intro i hi
        exact initial_memory_data E _ pixels _ i hi
    · intro h2
      rw [hb] at h2
      exact absurd h2 (by decide)
  · -- image
    obtain ⟨ts, cs, hts, hcs⟩ := table_entries img0.data_type img0.channel_order ht hc
    obtain ⟨ev, hal, hev⟩ := allocate_image E (image.negotiate_backing E img0).1 pixels hb
    have h := create_buffer_valid E img0 pixels ht hc
    rw [hal] at h
    refine ⟨_, _, ts, cs, h, hts, hcs, f1, f2, f3, ?_, ?_, ?_, ?_⟩
    · intro e he
      rcases List.mem_append.mp he with h1 | h1
      · exact hneg e h1
      · rcases List.mem_cons.mp h1 with h1 | h1
        · rw [h1]
          rfl
        · obtain ⟨msg, hmsg⟩ := hev e h1
          rw [hmsg]
          rfl
    · intro h0
      rw [negotiate_backing_buffer E img0 h0] at hb
      rw [h0] at hb
      exact absurd hb (by decide)
    · intro h2
      rw [hb] at h2
      exact absurd h2 (by decide)
    · intro _
      refine ⟨negotiate_backing_image E img0 hb, ?_⟩
      simp only [f3]

/-! ### The sentinel image of `from_file` -/

/-- C3: for every filename and requested backing, when the type is at or above
`__MAX_TYPE` or the channel order at or above `__MAX_CHANNEL`, `from_file` reports an
error and returns what the constructor makes of `(1, 1, backing, UINT_8, RGBA,
&fail_pixel)`, `fail_pixel` being the bytes of `0xDEADBEEF`; no call of the decoder is
made. The returned image has size 1x1, type `UINT_8` and channel order `RGBA`; buffer
backing is kept; a buffer-backed result holds these 4 bytes right after its header, an
image-backed result was requested as such and was created from these bytes. -/
theorem from_file_invalid_request (E : env) (filename : String) (backing : BACKING)
    (type : IMAGE_TYPE) (channel_order : IMAGE_CHANNEL)
    (h : type ≥ IMAGE_TYPE.__MAX_TYPE ∨ channel_order ≥ IMAGE_CHANNEL.__MAX_CHANNEL) :
    ∃ img events msg,
      image.from_file E filename backing type channel_order =
        some (img, event.oclr_error msg :: events) ∧
      image.new E 1 1 backing IMAGE_TYPE.UINT_8 IMAGE_CHANNEL.RGBA
        (some (u32_bytes E.endian 0xDEADBEEF)) = some (img, events) ∧
      (∀ e ∈ event.oclr_error msg :: events, e.from_decoder = false) ∧
      img.size = ⟨1, 1⟩ ∧ img.data_type = IMAGE_TYPE.UINT_8 ∧
      img.channel_order = IMAGE_CHANNEL.RGBA ∧
      (backing = BACKING.BUFFER → img.backing = BACKING.BUFFER) ∧
      (img.backing = BACKING.BUFFER → ∃ b, img.buffer = some b ∧
        holds_header_and_pixels E b ⟨IMAGE_TYPE.UINT_8, IMAGE_CHANNEL.RGBA, 1, 1⟩
          (some (u32_bytes E.endian 0xDEADBEEF)) 4) ∧
      (img.backing = BACKING.IMAGE → backing = BACKING.IMAGE ∧
        img.buffer = some (E.ocl.create_image2d_buffer img.native_format.image_channel_order
          img.native_format.image_channel_data_type 1 1
          (some (u32_bytes E.endian 0xDEADBEEF)))) := by
  obtain ⟨img, events, ts, cs, hnew, hts, hcs, h1, h2, h3, h4, h5, h6, h7⟩ :=
    create_buffer_outcome E
      (image.init 1 1 backing IMAGE_TYPE.UINT_8 IMAGE_CHANNEL.RGBA ⟨0, 0⟩)
      (some (u32_bytes E.endian 0xDEADBEEF))
      (show IMAGE_TYPE.UINT_8 < IMAGE_TYPE.__MAX_TYPE by decide)
      (show IMAGE_CHANNEL.RGBA < IMAGE_CHANNEL.__MAX_CHANNEL by decide)
  have ets : ts = 1 := by
    have : image_type_sizes[IMAGE_TYPE.UINT_8]? = some 1 := by decide
    exact (Option.some.inj (hts.symm.trans this))
  have ecs : cs = 4 := by
    have : image_channel_sizes[IMAGE_CHANNEL.RGBA]? = some 4 := by decide
    exact (Option.some.inj (hcs.symm.trans this))
  subst ets ecs
  have hds : data_size ⟨1, 1⟩ 1 4 = 4 := by decide
  have hds2 : data_size
      (image.init 1 1 backing IMAGE_TYPE.UINT_8 IMAGE_CHANNEL.RGBA ⟨0, 0⟩).size 1 4 = 4 := hds
  simp only [hds2] at h6
  have hfail : ∀ msg, fail_return E backing msg = some (img, event.oclr_error msg :: events) := by
    intro msg
    have hnew2 : image.new E 1 1 backing IMAGE_TYPE.UINT_8 IMAGE_CHANNEL.RGBA
        (some (u32_bytes E.endian 0xDEADBEEF)) = some (img, events) := hnew
    simp only [fail_return, hnew2]
  have hdec : ∀ msg, ∀ e ∈ event.oclr_error msg :: events, e.from_decoder = false := by
    intro msg e he
    rcases List.mem_cons.mp he with he | he
    · rw [he]
      rfl
    · exact h4 e he
  by_cases hty : type ≥ IMAGE_TYPE.__MAX_TYPE
  · refine ⟨img, events, "invalid image type", ?_, hnew, hdec _, h3, h1, h2, h5, h6, h7⟩
    simp only [image.from_file, hty, if_true, hfail]
  · have hch : channel_order ≥ IMAGE_CHANNEL.__MAX_CHANNEL := h.resolve_left hty
    refine ⟨img, events, "invalid channel type", ?_, hnew, hdec _, h3, h1, h2, h5, h6, h7⟩
    simp only [image.from_file, hty, hch, if_true, if_false, hfail]

/-- C3 at a concrete input: type 12 (`__MAX_TYPE`) with buffer backing requested; on a
little-endian host the bytes of `0xDEADBEEF` are EF BE AD DE. -/
theorem from_file_invalid_request_witness :
    (IMAGE_TYPE.__MAX_TYPE ≥ IMAGE_TYPE.__MAX_TYPE ∨
      IMAGE_CHANNEL.RGBA ≥ IMAGE_CHANNEL.__MAX_CHANNEL) ∧
    (List.range 4).map (u32_bytes demo_env.endian 0xDEADBEEF) = [0xEF, 0xBE, 0xAD, 0xDE] ∧
    ∃ img events msg,
      image.from_file demo_env "image.png" BACKING.BUFFER IMAGE_TYPE.__MAX_TYPE
        IMAGE_CHANNEL.RGBA = some (img, event.oclr_error msg :: events) ∧
      image.new demo_env 1 1 BACKING.BUFFER IMAGE_TYPE.UINT_8 IMAGE_CHANNEL.RGBA
        (some (u32_bytes demo_env.endian 0xDEADBEEF)) = some (img, events) ∧
      (∀ e ∈ event.oclr_error msg :: events, e.from_decoder = false) ∧
      img.size = ⟨1, 1⟩ ∧ img.data_type = IMAGE_TYPE.UINT_8 ∧
      img.channel_order = IMAGE_CHANNEL.RGBA ∧
      (BACKING.BUFFER = BACKING.BUFFER → img.backing = BACKING.BUFFER) ∧
      (img.backing = BACKING.BUFFER → ∃ b, img.buffer = some b ∧
        holds_header_and_pixels demo_env b ⟨IMAGE_TYPE.UINT_8, IMAGE_CHANNEL.RGBA, 1, 1⟩
          (some (u32_bytes demo_env.endian 0xDEADBEEF)) 4) ∧
      (img.backing = BACKING.IMAGE → BACKING.BUFFER = BACKING.IMAGE ∧
        img.buffer = some (demo_env.ocl.create_image2d_buffer
          img.native_format.image_channel_order
          img.native_format.image_channel_data_type 1 1
          (some (u32_bytes demo_env.endian 0xDEADBEEF)))) :=
  ⟨by decide, by decide,
   from_file_invalid_request demo_env "image.png" BACKING.BUFFER IMAGE_TYPE.__MAX_TYPE
     IMAGE_CHANNEL.RGBA (by decide)⟩

/-! ### The buffer of a buffer-backed image -/

/-- C5, the code at width = height = 65536, `UINT_8`, `RGBA`, buffer backing: the product
`size.x * size.y` wraps to 0 in `unsigned int`, `create_buffer` asks the backend for
`header_size()` bytes only and the image holds a buffer of that size, although
`width * height * typeSize * channelCount` is `2 ^ 34`. -/
theorem buffer_size_wraps_at_65536 (E : env) :
    ∃ img events mem,
      image.new E 65536 65536 BACKING.BUFFER IMAGE_TYPE.UINT_8 IMAGE_CHANNEL.RGBA none =
        some (img, events) ∧
      img.backing = BACKING.BUFFER ∧
      img.buffer = some (.buffer E.hdr.header_size mem) ∧
      events = [event.create_buffer E.hdr.header_size, event.map_buffer,
                event.unmap_buffer E.ocl.map_address] ∧
      image_type_sizes[IMAGE_TYPE.UINT_8]? = some 1 ∧
      image_channel_sizes[IMAGE_CHANNEL.RGBA]? = some 4 ∧
      E.hdr.header_size + 65536 * 65536 * 1 * 4 = E.hdr.header_size + 2 ^ 34 ∧
      E.hdr.header_size ≠ E.hdr.header_size + 65536 * 65536 * 1 * 4 := by
  have hneg := negotiate_backing_buffer E
    (image.init 65536 65536 BACKING.BUFFER IMAGE_TYPE.UINT_8 IMAGE_CHANNEL.RGBA ⟨0, 0⟩) rfl
  obtain ⟨ts, cs, hts, hcs, h⟩ := create_buffer_of_buffer E
    (image.init 65536 65536 BACKING.BUFFER IMAGE_TYPE.UINT_8 IMAGE_CHANNEL.RGBA ⟨0, 0⟩) none
    (show IMAGE_TYPE.UINT_8 < IMAGE_TYPE.__MAX_TYPE by decide)
    (show IMAGE_CHANNEL.RGBA < IMAGE_CHANNEL.__MAX_CHANNEL by decide)
    (by rw [hneg]; rfl)
  have ets : ts = 1 := by
    have : image_type_sizes[IMAGE_TYPE.UINT_8]? = some 1 := by decide
    exact (Option.some.inj (hts.symm.trans this))
  have ecs : cs = 4 := by
    have : image_channel_sizes[IMAGE_CHANNEL.RGBA]? = some 4 := by decide
    exact (Option.some.inj (hcs.symm.trans this))
  subst ets ecs
  have hds : data_size ⟨65536, 65536⟩ 1 4 = 0 := by decide
  have hds2 : data_size
      (image.init 65536 65536 BACKING.BUFFER IMAGE_TYPE.UINT_8 IMAGE_CHANNEL.RGBA ⟨0, 0⟩).size
      1 4 = 0 := hds
  have hsz : size_add E.hdr.header_size 0 = E.hdr.header_size :=
    Nat.mod_eq_of_lt (Nat.lt_trans E.hdr.header_size_small (by decide))
  simp only [hds2, hsz, hneg, List.nil_append] at h
  exact ⟨_, _, _, h, rfl, rfl, rfl, by decide, by decide, by norm_num, by norm_num⟩

/-- C6: `create_buffer`, run on the members set by either constructor with a valid type
and channel order, returns; when the resulting backing is `BUFFER`, the image holds a
linear buffer with the header record (data type, channel order, `size.x`, `size.y`) at
offset 0 and, in the `data_size` bytes right after the header, the first `data_size`
bytes of the supplied pixels, or zeros when no pixels were supplied. -/
theorem create_buffer_header_and_pixels (E : env) (img0 : image)
    (pixels : Option (Nat → Nat))
    (ht : img0.data_type < IMAGE_TYPE.__MAX_TYPE)
    (hc : img0.channel_order < IMAGE_CHANNEL.__MAX_CHANNEL) :
    ∃ img events ts cs, image.create_buffer E img0 pixels = some (img, events) ∧
      image_type_sizes[img0.data_type]? = some ts ∧
      image_channel_sizes[img0.channel_order]? = some cs ∧
      (img0.backing = BACKING.BUFFER → img.backing = BACKING.BUFFER) ∧
      (img.backing = BACKING.BUFFER → ∃ b, img.buffer = some b ∧
        holds_header_and_pixels E b
          ⟨img0.data_type, img0.channel_order, img0.size.x, img0.size.y⟩ pixels
          (data_size img0.size ts cs)) := by
  obtain ⟨img, events, ts, cs, h, hts, hcs, _, _, _, _, h5, h6, _⟩ :=
    create_buffer_outcome E img0 pixels ht hc
  exact ⟨img, events, ts, cs, h, hts, hcs, h5, h6⟩

/-- C6 at a concrete input: the 2x2 `UINT_8` `RGBA` buffer-backed image built from 16
pixel bytes in the concrete environment. -/
theorem create_buffer_header_and_pixels_witness :
    ((image.init 2 2 BACKING.BUFFER IMAGE_TYPE.UINT_8 IMAGE_CHANNEL.RGBA ⟨0, 0⟩).data_type
        < IMAGE_TYPE.__MAX_TYPE ∧
     (image.init 2 2 BACKING.BUFFER IMAGE_TYPE.UINT_8 IMAGE_CHANNEL.RGBA ⟨0, 0⟩).channel_order
        < IMAGE_CHANNEL.__MAX_CHANNEL) ∧
    ∃ img events ts cs,
      image.create_buffer demo_env
        (image.init 2 2 BACKING.BUFFER IMAGE_TYPE.UINT_8 IMAGE_CHANNEL.RGBA ⟨0, 0⟩)
        (some (fun i => i % 256)) = some (img, events) ∧
      image_type_sizes[(image.init 2 2 BACKING.BUFFER IMAGE_TYPE.UINT_8 IMAGE_CHANNEL.RGBA
        ⟨0, 0⟩).data_type]? = some ts ∧
      image_channel_sizes[(image.init 2 2 BACKING.BUFFER IMAGE_TYPE.UINT_8 IMAGE_CHANNEL.RGBA
        ⟨0, 0⟩).channel_order]? = some cs ∧
      ((image.init 2 2 BACKING.BUFFER IMAGE_TYPE.UINT_8 IMAGE_CHANNEL.RGBA ⟨0, 0⟩).backing
        = BACKING.BUFFER → img.backing = BACKING.BUFFER) ∧
      (img.backing = BACKING.BUFFER → ∃ b, img.buffer = some b ∧
        holds_header_and_pixels demo_env b
          ⟨(image.init 2 2 BACKING.BUFFER IMAGE_TYPE.UINT_8 IMAGE_CHANNEL.RGBA ⟨0, 0⟩).data_type,
           (image.init 2 2 BACKING.BUFFER IMAGE_TYPE.UINT_8 IMAGE_CHANNEL.RGBA
             ⟨0, 0⟩).channel_order,
           (image.init 2 2 BACKING.BUFFER IMAGE_TYPE.UINT_8 IMAGE_CHANNEL.RGBA ⟨0, 0⟩).size.x,
           (image.init 2 2 BACKING.BUFFER IMAGE_TYPE.UINT_8 IMAGE_CHANNEL.RGBA ⟨0, 0⟩).size.y⟩
          (some (fun i => i % 256))
          (data_size (image.init 2 2 BACKING.BUFFER IMAGE_TYPE.UINT_8 IMAGE_CHANNEL.RGBA
            ⟨0, 0⟩).size ts cs)) :=
  ⟨⟨by decide, by decide⟩,
   create_buffer_header_and_pixels demo_env
     (image.init 2 2 BACKING.BUFFER IMAGE_TYPE.UINT_8 IMAGE_CHANNEL.RGBA ⟨0, 0⟩)
     (some (fun i => i % 256)) (by decide) (by decide)⟩

/-! ### Region addressing -/

/-- The members of a buffer-backed image after its construction. -/
theorem new_buffer_members (E : env) (width height : Nat) (type : IMAGE_TYPE)
    (channel_order : IMAGE_CHANNEL) (pixels : Option (Nat → Nat))
    (ht : type < IMAGE_TYPE.__MAX_TYPE) (hc : channel_order < IMAGE_CHANNEL.__MAX_CHANNEL) :
    ∃ img events ts cs mem,
      image.new E width height BACKING.BUFFER type channel_order pixels = some (img, events) ∧
      image_type_sizes[type]? = some ts ∧ image_channel_sizes[channel_order]? = some cs ∧
      img.backing = BACKING.BUFFER ∧ img.size = ⟨width, height⟩ ∧
      img.img_type = ⟨type, channel_order, false⟩ ∧
      img.buffer = some (.buffer
        (E.hdr.header_size + data_size ⟨width, height⟩ ts cs) mem) ∧
      mem = initial_memory E ⟨type, channel_order, width, height⟩ pixels
        (data_size ⟨width, height⟩ ts cs) := by
  have hneg := negotiate_backing_buffer E
    (image.init width height BACKING.BUFFER type channel_order ⟨0, 0⟩) rfl
  obtain ⟨ts, cs, hts, hcs, h⟩ := create_buffer_of_buffer E
    (image.init width height BACKING.BUFFER type channel_order ⟨0, 0⟩) pixels ht hc
    (by rw [hneg]; rfl)
  obtain ⟨h8, h4⟩ := table_bounds _ _ ts cs hts hcs
  refine ⟨_, _, ts, cs, _, h, hts, hcs, ?_, ?_, ?_, ?_, rfl⟩
  · rw [hneg]; rfl
  · rw [hneg]; rfl
  · rw [hneg]; rfl
  · rw [buffer_size_exact E _ ts cs h8 h4]
    rfl

/-- The byte offset computed in `size_t` is the row-major offset modulo `2 ^ 64`. -/
theorem offset_mod (y w p x : Nat) :
    size_add (size_mul y (size_mul w p)) (size_mul x p) = (y * w * p + x * p) % SIZE_RANGE := by
  unfold size_add size_mul
  have h1 : (y * ((w * p) % SIZE_RANGE)) % SIZE_RANGE = (y * w * p) % SIZE_RANGE := by
    rw [Nat.mul_mod, Nat.mod_mod, ← Nat.mul_mod, Nat.mul_assoc]
  rw [h1, ← Nat.add_mod]

/-- The byte offset returned by `compute_buffer_offset_and_size`. -/
theorem buffer_offset_eq (img : image) (offset size_ : uint2) :
    (img.compute_buffer_offset_and_size offset size_).x =
      (offset.y * img.size.x * img.img_type.pixel_size +
        offset.x * img.img_type.pixel_size) % SIZE_RANGE := by
  unfold image.compute_buffer_offset_and_size
  exact offset_mod _ _ _ _

/-- C7 as stated fails: for the 2147483648 x 1 `UINT_8` `RGBA` buffer-backed image (pixel
size 4) and the pixel offset (0, 2147483648), `y * W * P + x * P` is `2 ^ 64` while the
byte offset returned is 0. -/
theorem buffer_offset_counterexample :
    ∃ img events,
      image.new demo_env 2147483648 1 BACKING.BUFFER IMAGE_TYPE.UINT_8 IMAGE_CHANNEL.RGBA none =
        some (img, events) ∧
      img.size.x = 2147483648 ∧ img.img_type.pixel_size = 4 ∧
      (img.compute_buffer_offset_and_size ⟨0, 2147483648⟩ ⟨1, 1⟩).x = 0 ∧
      (img.compute_buffer_offset_and_size ⟨0, 2147483648⟩ ⟨1, 1⟩).x ≠
        2147483648 * img.size.x * img.img_type.pixel_size + 0 * img.img_type.pixel_size := by
  obtain ⟨img, events, ts, cs, mem, h, _, _, _, hsize, htype, _, _⟩ :=
    new_buffer_members demo_env 2147483648 1 IMAGE_TYPE.UINT_8 IMAGE_CHANNEL.RGBA none
      (by decide) (by decide)
  have hp : img.img_type.pixel_size = 4 := by
    rw [htype]
    decide
  have hx : img.size.x = 2147483648 := by rw [hsize]
  have ho : (img.compute_buffer_offset_and_size ⟨0, 2147483648⟩ ⟨1, 1⟩).x = 0 := by
    rw [buffer_offset_eq, hp, hx]
    decide
  refine ⟨img, events, h, hx, hp, ho, ?_⟩
  rw [ho, hp, hx]
  decide

/-- C7, amended: for every image of width `W` with pixel size `P` and every pixel offset
`(x, y)`, the byte offset returned by `compute_buffer_offset_and_size` is
`y * W * P + x * P` reduced modulo `2 ^ 64`; it is `y * W * P + x * P` itself whenever
that value is below `2 ^ 64`, it is 0 for the offset (0, 0), and it does not depend on
the requested region size. -/
theorem buffer_offset_row_major (img : image) (offset size_ : uint2) :
    (img.compute_buffer_offset_and_size offset size_).x =
      (offset.y * img.size.x * img.img_type.pixel_size +
        offset.x * img.img_type.pixel_size) % SIZE_RANGE ∧
    (offset.y * img.size.x * img.img_type.pixel_size +
        offset.x * img.img_type.pixel_size < SIZE_RANGE →
      (img.compute_buffer_offset_and_size offset size_).x =
        offset.y * img.size.x * img.img_type.pixel_size +
          offset.x * img.img_type.pixel_size) ∧
    (img.compute_buffer_offset_and_size ⟨0, 0⟩ size_).x = 0 ∧
    ∀ other : uint2, (img.compute_buffer_offset_and_size offset other).x =
      (img.compute_buffer_offset_and_size offset size_).x := by
  refine ⟨buffer_offset_eq img offset size_, ?_, ?_, ?_⟩
  · intro hlt
    rw [buffer_offset_eq, Nat.mod_eq_of_lt hlt]
  · rw [buffer_offset_eq]
    simp
  · intro other
    rw [buffer_offset_eq, buffer_offset_eq]

/-- C7, amended, at a concrete input: offset (1, 2) in an image of width 3 with pixel
size 4 (`UINT_8` `RGBA`) gives byte offset 2 * 3 * 4 + 1 * 4 = 28. -/
theorem buffer_offset_row_major_witness :
    (2 * 3 * 4 + 1 * 4 < SIZE_RANGE) ∧
    (image.init 3 5 BACKING.BUFFER IMAGE_TYPE.UINT_8 IMAGE_CHANNEL.RGBA ⟨0, 0⟩).img_type.pixel_size
      = 4 ∧
    ((image.init 3 5 BACKING.BUFFER IMAGE_TYPE.UINT_8 IMAGE_CHANNEL.RGBA
        ⟨0, 0⟩).compute_buffer_offset_and_size ⟨1, 2⟩ ⟨1, 1⟩).x = 28 :=
  ⟨by decide, by decide,
   (buffer_offset_row_major
     (image.init 3 5 BACKING.BUFFER IMAGE_TYPE.UINT_8 IMAGE_CHANNEL.RGBA ⟨0, 0⟩)
     ⟨1, 2⟩ ⟨1, 1⟩).2.1 (by decide)⟩

/-- C8 as stated fails: for the 2x2 `UINT_8` `R` buffer-backed image (pixel size 1), the
offset (0, 0) and the region size `(~0u, ~0u)`, the byte length returned is 0 while
`(W - ox) * (H - oy) * P` is 4. -/
theorem rest_of_image_counterexample :
    ∃ img events,
      image.new demo_env 2 2 BACKING.BUFFER IMAGE_TYPE.UINT_8 IMAGE_CHANNEL.R none =
        some (img, events) ∧
      img.size = ⟨2, 2⟩ ∧ img.img_type.pixel_size = 1 ∧
      (img.compute_buffer_offset_and_size ⟨0, 0⟩ ⟨UINT_ALL_ONES, UINT_ALL_ONES⟩).y = 0 ∧
      (img.compute_buffer_offset_and_size ⟨0, 0⟩ ⟨UINT_ALL_ONES, UINT_ALL_ONES⟩).y ≠
        (img.size.x - 0) * (img.size.y - 0) * img.img_type.pixel_size := by
  obtain ⟨img, events, ts, cs, mem, h, _, _, _, hsize, htype, _, _⟩ :=
    new_buffer_members demo_env 2 2 IMAGE_TYPE.UINT_8 IMAGE_CHANNEL.R none
      (by decide) (by decide)
  have hp : img.img_type.pixel_size = 1 := by
    rw [htype]
    decide
  have hl : (img.compute_buffer_offset_and_size ⟨0, 0⟩ ⟨UINT_ALL_ONES, UINT_ALL_ONES⟩).y = 0 := by
    simp [image.compute_buffer_offset_and_size]
  refine ⟨img, events, h, hsize, hp, hl, ?_⟩
  rw [hl, hp, hsize]
  decide

/-- C8, amended: for every image and every offset, when both components of the region
size are `~0u` the byte length returned by `compute_buffer_offset_and_size` is 0. -/
theorem rest_of_image_length_zero (img : image) (offset : uint2) :
    (img.compute_buffer_offset_and_size offset ⟨UINT_ALL_ONES, UINT_ALL_ONES⟩).y = 0 := by
  simp [image.compute_buffer_offset_and_size]

/-- The backend call made by `image::write` on a buffer-backed image: `write_buffer`
with the offset and length of `compute_buffer_offset_and_size`, to which no header
size is added. -/
theorem write_buffer_call (img : image) (src : Nat → Nat) (offset size_ : uint2)
    (hb : img.backing = BACKING.BUFFER) :
    (img.write src offset size_).2 =
      [event.write_buffer (img.compute_buffer_offset_and_size offset size_).x
        (img.compute_buffer_offset_and_size offset size_).y] ∧
    (img.write src offset size_).1.buffer = img.buffer.map fun b =>
      opencl.write_buffer b src (img.compute_buffer_offset_and_size offset size_).x
        (img.compute_buffer_offset_and_size offset size_).y := by
  simp [image.write, hb]

/-- The backend call made by `image::read` on a buffer-backed image. -/
theorem read_buffer_call (img : image) (dst : Nat → Nat) (offset size_ : uint2)
    (hb : img.backing = BACKING.BUFFER) :
    (img.read dst offset size_).2 =
      [event.read_buffer (img.compute_buffer_offset_and_size offset size_).x
        (img.compute_buffer_offset_and_size offset size_).y] ∧
    (img.read dst offset size_).1 = match img.buffer with
      | some b => opencl.read_buffer dst b (img.compute_buffer_offset_and_size offset size_).x
          (img.compute_buffer_offset_and_size offset size_).y
      | none => dst := by
  simp [image.read, hb]

/-- C9, the code at a 2x2 `UINT_8` `R` buffer-backed image of the concrete environment
(header of 16 bytes) and the region of offset (0, 0) and size (1, 1): `image::write`
and `image::read` hand the backend the byte offset 0, not 16; the write of three bytes
`0xFF` replaces the first three bytes of the buffer, after which the header read back
is no longer the one `create_buffer` stored; the read returns a byte of the header. -/
theorem write_lands_on_header :
    ∃ img events size mem mem2,
      image.new demo_env 2 2 BACKING.BUFFER IMAGE_TYPE.UINT_8 IMAGE_CHANNEL.R none =
        some (img, events) ∧
      img.buffer = some (.buffer size mem) ∧
      demo_env.hdr.header_size = 16 ∧
      (img.write (fun _ => 0xFF) ⟨0, 0⟩ ⟨1, 1⟩).2 = [event.write_buffer 0 3] ∧
      (img.read (fun _ => 0) ⟨0, 0⟩ ⟨1, 1⟩).2 = [event.read_buffer 0 3] ∧
      (img.write (fun _ => 0xFF) ⟨0, 0⟩ ⟨1, 1⟩).1.buffer = some (.buffer size mem2) ∧
      mem 0 = 5 ∧ mem2 0 = 0xFF ∧
      demo_env.hdr.load mem = ⟨IMAGE_TYPE.UINT_8, IMAGE_CHANNEL.R, 2, 2⟩ ∧
      demo_env.hdr.load mem2 ≠ ⟨IMAGE_TYPE.UINT_8, IMAGE_CHANNEL.R, 2, 2⟩ ∧
      (img.read (fun _ => 0) ⟨0, 0⟩ ⟨1, 1⟩).1 0 = 5 := by
  obtain ⟨img, events, ts, cs, mem, h, hts, hcs, hb, hsize, htype, hbuf, hmem⟩ :=
    new_buffer_members demo_env 2 2 IMAGE_TYPE.UINT_8 IMAGE_CHANNEL.R none
      (by decide) (by decide)
  have ets : ts = 1 := by
    have : image_type_sizes[IMAGE_TYPE.UINT_8]? = some 1 := by decide
    exact (Option.some.inj (hts.symm.trans this))
  have ecs : cs = 1 := by
    have : image_channel_sizes[IMAGE_CHANNEL.R]? = some 1 := by decide
    exact (Option.some.inj (hcs.symm.trans this))
  subst ets ecs
  have hp : img.img_type.pixel_size = 1 := by
    rw [htype]
    decide
  have hx : (img.compute_buffer_offset_and_size ⟨0, 0⟩ ⟨1, 1⟩).x = 0 := by
    rw [buffer_offset_eq, hp, hsize]
    decide
  have hy : (img.compute_buffer_offset_and_size ⟨0, 0⟩ ⟨1, 1⟩).y = 3 := by
    simp only [image.compute_buffer_offset_and_size, hp, hsize]
    decide
  have hsz : demo_env.hdr.header_size + data_size ⟨2, 2⟩ 1 1 = 20 := by decide
  rw [hsz] at hbuf
  obtain ⟨hw1, hw2⟩ := write_buffer_call img (fun _ => 0xFF) ⟨0, 0⟩ ⟨1, 1⟩ hb
  obtain ⟨hr1, hr2⟩ := read_buffer_call img (fun _ => 0) ⟨0, 0⟩ ⟨1, 1⟩ hb
  rw [hx, hy] at hw1 hw2 hr1 hr2
  rw [hbuf] at hw2 hr2
  subst hmem
  have hm0 : initial_memory demo_env ⟨IMAGE_TYPE.UINT_8, IMAGE_CHANNEL.R, 2, 2⟩ none
      (data_size ⟨2, 2⟩ 1 1) 0 = 5 := by decide
  refine ⟨img, events, 20, _,
    (fun i => if 0 ≤ i ∧ i < 0 + 3 then (fun _ => 0xFF) (i - 0)
      else initial_memory demo_env ⟨IMAGE_TYPE.UINT_8, IMAGE_CHANNEL.R, 2, 2⟩ none
        (data_size ⟨2, 2⟩ 1 1) i),
    h, hbuf, rfl, hw1, hr1, ?_, hm0, ?_, ?_, ?_, ?_⟩
  · rw [hw2]
    simp [opencl.write_buffer]
  · simp
  · exact initial_memory_load demo_env _ none _
  · decide
  · rw [hr2]
    simp [opencl.read_buffer, hm0]

/-- C10: for every buffer-backed image holding a linear buffer, every pixel offset (in
any row) and every region size whose bytes, at the offset and length that
`compute_buffer_offset_and_size` gives, lie in the buffer: after `image::write` of the
`N` bytes of `src`, `image::read` with the same offset and size puts exactly these `N`
bytes at `dst`; both calls hand the backend the same offset and length. -/
theorem write_read_round_trip (img : image) (src dst : Nat → Nat) (offset size_ : uint2)
    (size : Nat) (mem : Nat → Nat)
    (hb : img.backing = BACKING.BUFFER)
    (hbuf : img.buffer = some (.buffer size mem))
    (hfit : (img.compute_buffer_offset_and_size offset size_).x +
      (img.compute_buffer_offset_and_size offset size_).y ≤ size) :
    (∀ i, i < (img.compute_buffer_offset_and_size offset size_).y →
      ((img.write src offset size_).1.read dst offset size_).1 i = src i) ∧
    (img.write src offset size_).2 =
      [event.write_buffer (img.compute_buffer_offset_and_size offset size_).x
        (img.compute_buffer_offset_and_size offset size_).y] ∧
    ((img.write src offset size_).1.read dst offset size_).2 =
      [event.read_buffer (img.compute_buffer_offset_and_size offset size_).x
        (img.compute_buffer_offset_and_size offset size_).y] := by
  have hw : (img.write src offset size_).1 =
      { img with buffer := some (.buffer size (fun i =>
          if (img.compute_buffer_offset_and_size offset size_).x ≤ i ∧
             i < (img.compute_buffer_offset_and_size offset size_).x +
               (img.compute_buffer_offset_and_size offset size_).y
          then src (i - (img.compute_buffer_offset_and_size offset size_).x)
          else mem i)) } := by
    simp [image.write, hb, hbuf, opencl.write_buffer, hfit]
  have hcomp : (img.write src offset size_).1.compute_buffer_offset_and_size offset size_ =
      img.compute_buffer_offset_and_size offset size_ := by
    rw [hw]
    rfl
  have hb2 : (img.write src offset size_).1.backing = BACKING.BUFFER := by
    rw [hw]
    exact hb
  obtain ⟨hr1, hr2⟩ := read_buffer_call (img.write src offset size_).1 dst offset size_ hb2
  rw [hcomp] at hr1 hr2
  refine ⟨?_, (write_buffer_call img src offset size_ hb).1, hr1⟩
  intro i hi
  rw [hr2, hw]
  simp [opencl.read_buffer, hfit, hi]

/-- C10 at a concrete input: a 2x3 `UINT_8` `RGBA` buffer-backed image with a buffer of
16 + 24 bytes; one pixel (4 bytes) written at offset (0, 1), in the middle row. -/
theorem write_read_round_trip_witness :
    (({ image.init 2 3 BACKING.BUFFER IMAGE_TYPE.UINT_8 IMAGE_CHANNEL.RGBA ⟨0, 0⟩ with
          buffer := some (.buffer 40 (fun _ => 0)) } : image).backing = BACKING.BUFFER ∧
     ({ image.init 2 3 BACKING.BUFFER IMAGE_TYPE.UINT_8 IMAGE_CHANNEL.RGBA ⟨0, 0⟩ with
          buffer := some (.buffer 40 (fun _ => 0)) } : image).compute_buffer_offset_and_size
        ⟨0, 1⟩ ⟨1, 0⟩ = ⟨8, 4⟩ ∧
     (({ image.init 2 3 BACKING.BUFFER IMAGE_TYPE.UINT_8 IMAGE_CHANNEL.RGBA ⟨0, 0⟩ with
          buffer := some (.buffer 40 (fun _ => 0)) } : image).compute_buffer_offset_and_size
        ⟨0, 1⟩ ⟨1, 0⟩).x +
      (({ image.init 2 3 BACKING.BUFFER IMAGE_TYPE.UINT_8 IMAGE_CHANNEL.RGBA ⟨0, 0⟩ with
          buffer := some (.buffer 40 (fun _ => 0)) } : image).compute_buffer_offset_and_size
        ⟨0, 1⟩ ⟨1, 0⟩).y ≤ 40) ∧
    ∀ i, i < (({ image.init 2 3 BACKING.BUFFER IMAGE_TYPE.UINT_8 IMAGE_CHANNEL.RGBA ⟨0, 0⟩ with
          buffer := some (.buffer 40 (fun _ => 0)) } : image).compute_buffer_offset_and_size
        ⟨0, 1⟩ ⟨1, 0⟩).y →
      (((({ image.init 2 3 BACKING.BUFFER IMAGE_TYPE.UINT_8 IMAGE_CHANNEL.RGBA ⟨0, 0⟩ with
          buffer := some (.buffer 40 (fun _ => 0)) } : image).write (fun i => i + 1)
            ⟨0, 1⟩ ⟨1, 0⟩).1).read (fun _ => 0) ⟨0, 1⟩ ⟨1, 0⟩).1 i = (fun i => i + 1) i :=
  ⟨⟨rfl, by decide, by decide⟩,
   (write_read_round_trip
     { image.init 2 3 BACKING.BUFFER IMAGE_TYPE.UINT_8 IMAGE_CHANNEL.RGBA ⟨0, 0⟩ with
       buffer := some (.buffer 40 (fun _ => 0)) }
     (fun i => i + 1) (fun _ => 0) ⟨0, 1⟩ ⟨1, 0⟩ 40 (fun _ => 0) rfl rfl (by decide)).1⟩

/-! ### Mapping -/

/-- C11: for a buffer-backed image `image::map` returns the address that the backend
returned from `map_buffer` plus `header_size()`, `image::unmap` hands the backend the
given pointer minus `header_size()`, and `unmap` of the pointer that `map` returned
hands the backend the address it returned from `map_buffer`; for an image-backed image
`map` returns the backend address as it is and `unmap` passes the pointer on as it
is. -/
theorem map_unmap_header_offset (E : env) (img : image) (offset size : uint2) :
    (img.backing = BACKING.BUFFER →
      img.map E offset size =
        ((E.ocl.map_address : Int) + E.hdr.header_size, [event.map_buffer]) ∧
      (∀ p : Int, img.unmap E p = [event.unmap_buffer (p - E.hdr.header_size)]) ∧
      img.unmap E (img.map E offset size).1 = [event.unmap_buffer E.ocl.map_address]) ∧
    (img.backing = BACKING.IMAGE →
      img.map E offset size = ((E.ocl.map_address : Int), [event.map_buffer]) ∧
      (∀ p : Int, img.unmap E p = [event.unmap_buffer p]) ∧
      img.unmap E (img.map E offset size).1 = [event.unmap_buffer E.ocl.map_address]) := by
  constructor
  · intro hb
    refine ⟨by simp [image.map, hb], fun p => by simp [image.unmap, hb], ?_⟩
    simp [image.map, image.unmap, hb]
  · intro hb
    refine ⟨by simp [image.map, hb], fun p => by simp [image.unmap, hb], ?_⟩
    simp [image.map, image.unmap, hb]

/-- C11 at a concrete input: in the concrete environment (buffers mapped at 0x10000,
header of 16 bytes) a buffer-backed image is mapped at 0x10010, and unmapping that
pointer gives the backend 0x10000 back. -/
theorem map_unmap_header_offset_witness :
    (image.init 2 2 BACKING.BUFFER IMAGE_TYPE.UINT_8 IMAGE_CHANNEL.RGBA ⟨0, 0⟩).backing =
      BACKING.BUFFER ∧
    (image.init 2 2 BACKING.BUFFER IMAGE_TYPE.UINT_8 IMAGE_CHANNEL.RGBA ⟨0, 0⟩).map demo_env
      ⟨0, 0⟩ ⟨2, 2⟩ = (0x10010, [event.map_buffer]) ∧
    (image.init 2 2 BACKING.BUFFER IMAGE_TYPE.UINT_8 IMAGE_CHANNEL.RGBA ⟨0, 0⟩).unmap demo_env
      ((image.init 2 2 BACKING.BUFFER IMAGE_TYPE.UINT_8 IMAGE_CHANNEL.RGBA ⟨0, 0⟩).map demo_env
        ⟨0, 0⟩ ⟨2, 2⟩).1 = [event.unmap_buffer 0x10000] :=
  ⟨rfl, by decide,
   ((map_unmap_header_offset demo_env
      (image.init 2 2 BACKING.BUFFER IMAGE_TYPE.UINT_8 IMAGE_CHANNEL.RGBA ⟨0, 0⟩)
      ⟨0, 0⟩ ⟨2, 2⟩).1 rfl).2.2⟩

/-! ### Ownership -/

/-- C12: the move constructor gives the new image the backing, image type, data type,
channel order, size, native format and buffer handle of the source and leaves the
source with a null handle; the destructor passes the handle to `delete_buffer`
exactly when the handle is not null and the backend exists, and then passes that
handle once. So, after a move, destroying the moved-from image releases nothing, and
destroying both images releases what destroying the original would have released:
the original handle once when it is not null and the backend exists. -/
theorem move_transfers_ownership (ocl : Option opencl) (img : image) :
    (img.move.1.backing = img.backing ∧ img.move.1.img_type = img.img_type ∧
     img.move.1.data_type = img.data_type ∧ img.move.1.channel_order = img.channel_order ∧
     img.move.1.size = img.size ∧ img.move.1.native_format = img.native_format ∧
     img.move.1.buffer = img.buffer ∧ img.move.2.buffer = none) ∧
    ((image.destructor ocl img).1 ≠ [] ↔ (img.buffer ≠ none ∧ ocl ≠ none)) ∧
    (∀ b o, img.buffer = some b → ocl = some o →
      image.destructor ocl img = ([b], [event.delete_buffer])) ∧
    image.destructor ocl img.move.2 = ([], []) ∧
    (image.destructor ocl img.move.1).1 ++ (image.destructor ocl img.move.2).1 =
      (image.destructor ocl img).1 ∧
    (image.destructor ocl img.move.1).2 ++ (image.destructor ocl img.move.2).2 =
      (image.destructor ocl img).2 ∧
    (∀ b o, img.buffer = some b → ocl = some o →
      (image.destructor ocl img.move.1).1 ++ (image.destructor ocl img.move.2).1 = [b] ∧
      (image.destructor ocl img.move.1).2 ++ (image.destructor ocl img.move.2).2 =
        [event.delete_buffer]) := by
  have hmove : img.move.1 = img := rfl
  have hsrc : image.destructor ocl img.move.2 = ([], []) := by
    simp [image.destructor, image.move]
  refine ⟨⟨rfl, rfl, rfl, rfl, rfl, rfl, rfl, rfl⟩, ?_, ?_, hsrc, ?_, ?_, ?_⟩
  · cases hbuf : img.buffer <;> cases hocl : ocl <;> simp [image.destructor, hbuf]
  · intro b o hb ho
    simp [image.destructor, hb, ho]
  · rw [hsrc, hmove]
    simp
  · rw [hsrc, hmove]
    simp
  · intro b o hb ho
    rw [hsrc, hmove]
    simp [image.destructor, hb, ho]

/-- C12 at a concrete input: a buffer-backed image holding a 20-byte buffer, with the
backend of the concrete environment present. -/
theorem move_transfers_ownership_witness :
    image.destructor (some demo_ocl)
      ({ image.init 2 2 BACKING.BUFFER IMAGE_TYPE.UINT_8 IMAGE_CHANNEL.R ⟨0, 0⟩ with
         buffer := some (.buffer 20 (fun _ => 0)) } : image).move.2 = ([], []) ∧
    (image.destructor (some demo_ocl)
      ({ image.init 2 2 BACKING.BUFFER IMAGE_TYPE.UINT_8 IMAGE_CHANNEL.R ⟨0, 0⟩ with
         buffer := some (.buffer 20 (fun _ => 0)) } : image).move.1).2 ++
    (image.destructor (some demo_ocl)
      ({ image.init 2 2 BACKING.BUFFER IMAGE_TYPE.UINT_8 IMAGE_CHANNEL.R ⟨0, 0⟩ with
         buffer := some (.buffer 20 (fun _ => 0)) } : image).move.2).2 =
      [event.delete_buffer] :=
  ⟨(move_transfers_ownership (some demo_ocl)
      { image.init 2 2 BACKING.BUFFER IMAGE_TYPE.UINT_8 IMAGE_CHANNEL.R ⟨0, 0⟩ with
        buffer := some (.buffer 20 (fun _ => 0)) }).2.2.2.1,
   ((move_transfers_ownership (some demo_ocl)
      { image.init 2 2 BACKING.BUFFER IMAGE_TYPE.UINT_8 IMAGE_CHANNEL.R ⟨0, 0⟩ with
        buffer := some (.buffer 20 (fun _ => 0)) }).2.2.2.2.2.2
      (.buffer 20 (fun _ => 0)) demo_ocl rfl rfl).2⟩

/-! ### Native formats -/

/-- The search loop finds a format exactly when it is in the list. -/
theorem format_found_iff (formats : List ImageFormat) (f : ImageFormat) :
    format_found formats f = true ↔ f ∈ formats := by
  unfold format_found
  rw [List.any_eq_true]
  constructor
  · rintro ⟨g, hg, heq⟩
    simp only [Bool.and_eq_true, beq_iff_eq] at heq
    have : g = f := by
      cases g
      cases f
      simp_all
    rw [← this]
    exact hg
  · intro hf
    exact ⟨f, hf, by simp⟩

/-- When the negotiation ends with image backing, the native format it ends with is one
the backend lists, provided the backend resolves the type and channel order to an
unresolved descriptor or to a listed format. -/
theorem negotiate_backing_listed (E : env) (img : image)
    (hq : (E.ocl.get_image_format img.data_type img.channel_order).unresolved = true ∨
          E.ocl.get_image_format img.data_type img.channel_order ∈ E.ocl.get_image_formats)
    (hb : (image.negotiate_backing E img).1.backing = BACKING.IMAGE) :
    (image.negotiate_backing E img).1.native_format ∈ E.ocl.get_image_formats := by
  have hi : img.backing = BACKING.IMAGE := negotiate_backing_image E img hb
  simp only [ImageFormat.unresolved, Bool.or_eq_true, beq_iff_eq] at hq
  simp only [image.negotiate_backing, hi, if_true] at hb ⊢
  obtain ⟨c0, c1, c2, _, _, _⟩ := check_native_format_frame E img
  have hfall : ∀ i : image, (image.fall_back i).1.backing = BACKING.IMAGE →
      ¬ (i.native_format.image_channel_data_type = 0 ∨ i.native_format.image_channel_order = 0) ∧
      (image.fall_back i).1.native_format = i.native_format := by
    intro i h
    unfold image.fall_back at h ⊢
    split_ifs at h ⊢ with hz
    exact ⟨hz, rfl⟩
  obtain ⟨hnz, hnf⟩ := hfall _ hb
  rw [hnf]
  unfold image.find_native_format at hnz ⊢
  split_ifs at hnz ⊢ with hz
  · -- the format is the one the backend resolved
    simp only [c1, c2] at hnz ⊢
    rcases hq with hq | hq
    · exact absurd hq hnz
    · exact hq
  · -- the format given at construction was kept
    unfold image.check_native_format at hz ⊢
    split_ifs at hz ⊢ with h1 h2
    · exact (format_found_iff _ _).mp h2
    · simp at hz
    · exact absurd (not_or.mp h1) (by
        intro h
        apply hz
        left
        simpa using h.1)

/-- What `create_buffer` does whenever the negotiated backing is the image: one 2-D image
object of the negotiated native format is requested, and a failure to create it is
reported. -/
theorem create_buffer_of_image (E : env) (img : image) (pixels : Option (Nat → Nat))
    (ht : img.data_type < IMAGE_TYPE.__MAX_TYPE)
    (hc : img.channel_order < IMAGE_CHANNEL.__MAX_CHANNEL)
    (hb : (image.negotiate_backing E img).1.backing = BACKING.IMAGE) :
    image.create_buffer E img pixels =
      some ({ (image.negotiate_backing E img).1 with
                img_type := { (image.negotiate_backing E img).1.img_type with native := true }
                buffer := some (E.ocl.create_image2d_buffer
                  (image.negotiate_backing E img).1.native_format.image_channel_order
                  (image.negotiate_backing E img).1.native_format.image_channel_data_type
                  img.size.x img.size.y pixels) },
            (image.negotiate_backing E img).2 ++
              event.create_image2d_buffer pixels.isSome
                (image.negotiate_backing E img).1.native_format.image_channel_order
                (image.negotiate_backing E img).1.native_format.image_channel_data_type
                img.size.x img.size.y ::
              (if E.ocl.image2d_available (image.negotiate_backing E img).1.native_format
                  img.size = true then []
               else [event.oclr_error "image buffer creation failed!"])) := by
  obtain ⟨_, _, f3, _, _⟩ := negotiate_backing_frame E img
  rw [create_buffer_valid E img pixels ht hc]
  unfold image.allocate
  simp only [hb, reduceCtorEq, if_false, f3]
  unfold opencl.create_image2d_buffer
  by_cases hav : E.ocl.image2d_available (image.negotiate_backing E img).1.native_format
      img.size = true
  · have hav2 : E.ocl.image2d_available
        ⟨(image.negotiate_backing E img).1.native_format.image_channel_order,
         (image.negotiate_backing E img).1.native_format.image_channel_data_type⟩
        ⟨img.size.x, img.size.y⟩ = true := hav
    simp only [hav, hav2, if_true]
  · have hav2 : ¬ E.ocl.image2d_available
        ⟨(image.negotiate_backing E img).1.native_format.image_channel_order,
         (image.negotiate_backing E img).1.native_format.image_channel_data_type⟩
        ⟨img.size.x, img.size.y⟩ = true := hav
    have hav3 : E.ocl.image2d_available
        ⟨(image.negotiate_backing E img).1.native_format.image_channel_order,
         (image.negotiate_backing E img).1.native_format.image_channel_data_type⟩
        ⟨img.size.x, img.size.y⟩ = false := by simpa using hav2
    simp [hav3, hb]

/-- Whatever members `create_buffer` starts from, with a valid type and channel order it
requests 2-D image objects only in a listed format and ends with a listed native
format when it ends with image backing. -/
theorem create_buffer_native_listed (E : env) (img : image) (pixels : Option (Nat → Nat))
    (ht : img.data_type < IMAGE_TYPE.__MAX_TYPE)
    (hc : img.channel_order < IMAGE_CHANNEL.__MAX_CHANNEL)
    (hq : (E.ocl.get_image_format img.data_type img.channel_order).unresolved = true ∨
          E.ocl.get_image_format img.data_type img.channel_order ∈ E.ocl.get_image_formats) :
    native_format_listed E (image.create_buffer E img pixels) := by
  cases hb : (image.negotiate_backing E img).1.backing
  · obtain ⟨ts, cs, _, _, h⟩ := create_buffer_of_buffer E img pixels ht hc hb
    refine ⟨_, _, h, ?_, ?_⟩
    · intro hi
      have hi2 : (image.negotiate_backing E img).1.backing = BACKING.IMAGE := hi
      rw [hb] at hi2
      exact absurd hi2 (by decide)
    · intro ic o d w hh hmem
      rcases List.mem_append.mp hmem with h1 | h1
      · obtain ⟨msg, hmsg⟩ := negotiate_backing_events E img _ h1
        exact absurd hmsg (by simp)
      · simp at h1
  · have hl := negotiate_backing_listed E img hq hb
    refine ⟨_, _, create_buffer_of_image E img pixels ht hc hb, fun _ => hl, ?_⟩
    intro ic o d w hh hmem
    rcases List.mem_append.mp hmem with h1 | h1
    · obtain ⟨msg, hmsg⟩ := negotiate_backing_events E img _ h1
      exact absurd hmsg (by simp)
    · rcases List.mem_cons.mp h1 with h1 | h1
      · simp only [event.create_image2d_buffer.injEq] at h1
        obtain ⟨_, ho, hd, _, _⟩ := h1
        rw [ho, hd]
        exact hl
      · split_ifs at h1 <;> simp at h1

/-- C13: for every construction with a valid type and channel order, through either
constructor, for which `get_image_format` returns an unresolved descriptor (a zero
code) or a format of `get_image_formats`: the construction returns; if the image is
image-backed its native format is in `get_image_formats`; and every 2-D image object
requested from the backend has a format of that list, so a supplied format that is
not in the list is never used for the allocation. -/
theorem native_format_in_capability_list (E : env) (width height : Nat)
    (type : IMAGE_TYPE) (channel_order : IMAGE_CHANNEL) (pixels : Option (Nat → Nat))
    (ht : type < IMAGE_TYPE.__MAX_TYPE) (hc : channel_order < IMAGE_CHANNEL.__MAX_CHANNEL)
    (hq : (E.ocl.get_image_format type channel_order).unresolved = true ∨
          E.ocl.get_image_format type channel_order ∈ E.ocl.get_image_formats) :
    (∀ backing : BACKING, native_format_listed E
      (image.new E width height backing type channel_order pixels)) ∧
    (∀ native_format : ImageFormat, native_format_listed E
      (image.new_native E width height type channel_order native_format pixels)) ∧
    (∀ native_format : ImageFormat, native_format ∉ E.ocl.get_image_formats →
      ∃ img events,
        image.new_native E width height type channel_order native_format pixels =
          some (img, events) ∧
        (img.backing = BACKING.IMAGE → img.native_format ≠ native_format) ∧
        ∀ ic w h, event.create_image2d_buffer ic native_format.image_channel_order
          native_format.image_channel_data_type w h ∉ events) := by
  have hnat : ∀ native_format : ImageFormat, native_format_listed E
      (image.new_native E width height type channel_order native_format pixels) := by
    intro native_format
    exact create_buffer_native_listed E
      (image.init width height BACKING.IMAGE type channel_order native_format) pixels ht hc hq
  refine ⟨?_, hnat, ?_⟩
  · intro backing
    exact create_buffer_native_listed E
      (image.init width height backing type channel_order ⟨0, 0⟩) pixels ht hc hq
  · intro native_format hnot
    obtain ⟨img, events, h, h1, h2⟩ := hnat native_format
    refine ⟨img, events, h, ?_, ?_⟩
    · intro hi heq
      exact hnot (heq ▸ h1 hi)
    · intro ic w hh hmem
      exact hnot (h2 ic _ _ w hh hmem)

/-- C13 at a concrete input: in the concrete environment, whose backend lists one format
and resolves `UINT_8` `RGBA` to it, an image is requested with the format
`(0x10B0, 0x10D2)`, which is not listed. -/
theorem native_format_in_capability_list_witness :
    (IMAGE_TYPE.UINT_8 < IMAGE_TYPE.__MAX_TYPE ∧
     IMAGE_CHANNEL.RGBA < IMAGE_CHANNEL.__MAX_CHANNEL ∧
     ((demo_env.ocl.get_image_format IMAGE_TYPE.UINT_8 IMAGE_CHANNEL.RGBA).unresolved = true ∨
      demo_env.ocl.get_image_format IMAGE_TYPE.UINT_8 IMAGE_CHANNEL.RGBA ∈
        demo_env.ocl.get_image_formats) ∧
     (⟨0x10B0, 0x10D2⟩ : ImageFormat) ∉ demo_env.ocl.get_image_formats) ∧
    ∃ img events,
      image.new_native demo_env 2 2 IMAGE_TYPE.UINT_8 IMAGE_CHANNEL.RGBA ⟨0x10B0, 0x10D2⟩ none =
        some (img, events) ∧
      (img.backing = BACKING.IMAGE → img.native_format ≠ ⟨0x10B0, 0x10D2⟩) ∧
      ∀ ic w h, event.create_image2d_buffer ic
        (⟨0x10B0, 0x10D2⟩ : ImageFormat).image_channel_order
        (⟨0x10B0, 0x10D2⟩ : ImageFormat).image_channel_data_type w h ∉ events :=
  ⟨⟨by decide, by decide, by decide, by decide⟩,
   (native_format_in_capability_list demo_env 2 2 IMAGE_TYPE.UINT_8 IMAGE_CHANNEL.RGBA none
      (by decide) (by decide) (by decide)).2.2 ⟨0x10B0, 0x10D2⟩ (by decide)⟩

/-! ### A failed image allocation -/

/-- C14, amended: when the 2-D image object of an image-backed construction cannot be
created (the buffer object returned by `create_image2d_buffer` has a null
`image_buffer`), the failure is reported and the image holds that buffer object as
its handle: `get_buffer()` returns it, a handle that is not null and whose
`image_buffer` is null. -/
theorem failed_image_allocation_keeps_handle (E : env) (img0 : image)
    (pixels : Option (Nat → Nat))
    (ht : img0.data_type < IMAGE_TYPE.__MAX_TYPE)
    (hc : img0.channel_order < IMAGE_CHANNEL.__MAX_CHANNEL) :
    ∃ img events, image.create_buffer E img0 pixels = some (img, events) ∧
      (img.backing = BACKING.IMAGE →
       E.ocl.image2d_available img.native_format img0.size = false →
        img.get_buffer = some (.image2d none) ∧ img.get_buffer ≠ none ∧
        event.oclr_error "image buffer creation failed!" ∈ events) := by
  cases hb : (image.negotiate_backing E img0).1.backing
  · obtain ⟨ts, cs, _, _, h⟩ := create_buffer_of_buffer E img0 pixels ht hc hb
    refine ⟨_, _, h, ?_⟩
    intro hi
    have hi2 : (image.negotiate_backing E img0).1.backing = BACKING.IMAGE := hi
    rw [hb] at hi2
    exact absurd hi2 (by decide)
  · refine ⟨_, _, create_buffer_of_image E img0 pixels ht hc hb, ?_⟩
    intro _ hfail
    have hfail2 : E.ocl.image2d_available (image.negotiate_backing E img0).1.native_format
        img0.size = false := hfail
    have hfail3 : E.ocl.image2d_available
        ⟨(image.negotiate_backing E img0).1.native_format.image_channel_order,
         (image.negotiate_backing E img0).1.native_format.image_channel_data_type⟩
        ⟨img0.size.x, img0.size.y⟩ = false := hfail
    have hobj : E.ocl.create_image2d_buffer
        (image.negotiate_backing E img0).1.native_format.image_channel_order
        (image.negotiate_backing E img0).1.native_format.image_channel_data_type
        img0.size.x img0.size.y pixels = .image2d none := by
      simp [opencl.create_image2d_buffer, hfail3]
    refine ⟨?_, ?_, ?_⟩
    · simp only [image.get_buffer, hobj]
    · simp [image.get_buffer]
    · simp [hfail2]

/-- C14 as stated fails: with the backend that cannot create 2-D image objects, the 2x2
`UINT_8` `RGBA` image requested with image backing stays image-backed, the failure of
the allocation is reported, and `get_buffer()` is not null. -/
theorem failed_image_allocation_counterexample :
    ∃ img events,
      image.new demo_env_without_images 2 2 BACKING.IMAGE IMAGE_TYPE.UINT_8
        IMAGE_CHANNEL.RGBA none = some (img, events) ∧
      img.backing = BACKING.IMAGE ∧
      demo_env_without_images.ocl.image2d_available img.native_format ⟨2, 2⟩ = false ∧
      event.oclr_error "image buffer creation failed!" ∈ events ∧
      img.get_buffer = some (.image2d none) ∧
      ¬ (img.get_buffer = none) := by
  have hb : (image.negotiate_backing demo_env_without_images
      (image.init 2 2 BACKING.IMAGE IMAGE_TYPE.UINT_8 IMAGE_CHANNEL.RGBA ⟨0, 0⟩)).1.backing =
      BACKING.IMAGE := by decide
  have h := create_buffer_of_image demo_env_without_images
    (image.init 2 2 BACKING.IMAGE IMAGE_TYPE.UINT_8 IMAGE_CHANNEL.RGBA ⟨0, 0⟩) none
    (by decide) (by decide) hb
  refine ⟨_, _, h, hb, rfl, ?_, ?_, ?_⟩
  · simp
    decide
  · rfl
  · simp [image.get_buffer]

/-- C14, amended, at a concrete input: the same construction with the backend that
cannot create 2-D image objects. -/
theorem failed_image_allocation_keeps_handle_witness :
    ((image.init 2 2 BACKING.IMAGE IMAGE_TYPE.UINT_8 IMAGE_CHANNEL.RGBA ⟨0, 0⟩).data_type
        < IMAGE_TYPE.__MAX_TYPE ∧
     (image.init 2 2 BACKING.IMAGE IMAGE_TYPE.UINT_8 IMAGE_CHANNEL.RGBA ⟨0, 0⟩).channel_order
        < IMAGE_CHANNEL.__MAX_CHANNEL) ∧
    ∃ img events,
      image.create_buffer demo_env_without_images
        (image.init 2 2 BACKING.IMAGE IMAGE_TYPE.UINT_8 IMAGE_CHANNEL.RGBA ⟨0, 0⟩) none =
        some (img, events) ∧
      (img.backing = BACKING.IMAGE →
       demo_env_without_images.ocl.image2d_available img.native_format
         (image.init 2 2 BACKING.IMAGE IMAGE_TYPE.UINT_8 IMAGE_CHANNEL.RGBA ⟨0, 0⟩).size
           = false →
        img.get_buffer = some (.image2d none) ∧ img.get_buffer ≠ none ∧
        event.oclr_error "image buffer creation failed!" ∈ events) :=
  ⟨⟨by decide, by decide⟩,
   failed_image_allocation_keeps_handle demo_env_without_images
     (image.init 2 2 BACKING.IMAGE IMAGE_TYPE.UINT_8 IMAGE_CHANNEL.RGBA ⟨0, 0⟩) none
     (by decide) (by decide)⟩

/-! ### Operations without an implementation -/

/-- C15: for every image, buffer-backed or image-backed, and every requested backing,
`image::modify_backing` returns `false` and leaves the image as it is: same backing,
native format, size, type, channel order and buffer handle. -/
theorem modify_backing_unsupported (img : image) (new_backing : BACKING) :
    (img.modify_backing new_backing).1 = false ∧
    (img.modify_backing new_backing).2 = img ∧
    (img.modify_backing new_backing).2.backing = img.backing ∧
    (img.modify_backing new_backing).2.native_format = img.native_format ∧
    (img.modify_backing new_backing).2.size = img.size ∧
    (img.modify_backing new_backing).2.data_type = img.data_type ∧
    (img.modify_backing new_backing).2.img_type = img.img_type ∧
    (img.modify_backing new_backing).2.channel_order = img.channel_order ∧
    (img.modify_backing new_backing).2.buffer = img.buffer := by
  have h : img.modify_backing new_backing = (false, img) := by
    unfold image.modify_backing
    split_ifs <;> rfl
  rw [h]
  exact ⟨rfl, rfl, rfl, rfl, rfl, rfl, rfl, rfl, rfl⟩

/-- The function `image::copy` returns without a call and without a change, whatever the
backings of the two images. -/
theorem copy_does_nothing (img src_img : image) (src_offset dst_offset size_ : uint2) :
    img.copy src_img src_offset dst_offset size_ = (img, []) := by
  unfold image.copy
  split_ifs <;> rfl

/-- C16 as stated fails: on the image-backed 2x2 `UINT_8` `RGBA` image of the concrete
environment, `image::read` returns with the destination as it was and without any
call or report, and `image::copy` from a buffer-backed image returns with the image
as it was and without any call or report; neither signals a failure. -/
theorem unimplemented_operations_counterexample :
    ∃ img events src_img src_events,
      image.new demo_env 2 2 BACKING.IMAGE IMAGE_TYPE.UINT_8 IMAGE_CHANNEL.RGBA none =
        some (img, events) ∧
      image.new demo_env 2 2 BACKING.BUFFER IMAGE_TYPE.UINT_8 IMAGE_CHANNEL.RGBA none =
        some (src_img, src_events) ∧
      img.backing = BACKING.IMAGE ∧ src_img.backing = BACKING.BUFFER ∧
      img.read (fun _ => 7) ⟨0, 0⟩ ⟨1, 1⟩ = (fun _ => 7, []) ∧
      ¬ signals_failure (img.read (fun _ => 7) ⟨0, 0⟩ ⟨1, 1⟩).2 ∧
      img.copy src_img ⟨0, 0⟩ ⟨0, 0⟩ ⟨1, 1⟩ = (img, []) ∧
      ¬ signals_failure (img.copy src_img ⟨0, 0⟩ ⟨0, 0⟩ ⟨1, 1⟩).2 := by
  have hb : (image.negotiate_backing demo_env
      (image.init 2 2 BACKING.IMAGE IMAGE_TYPE.UINT_8 IMAGE_CHANNEL.RGBA ⟨0, 0⟩)).1.backing =
      BACKING.IMAGE := by decide
  have h := create_buffer_of_image demo_env
    (image.init 2 2 BACKING.IMAGE IMAGE_TYPE.UINT_8 IMAGE_CHANNEL.RGBA ⟨0, 0⟩) none
    (by decide) (by decide) hb
  obtain ⟨src_img, src_events, _, _, _, hs, _, _, hsb, _⟩ :=
    new_buffer_members demo_env 2 2 IMAGE_TYPE.UINT_8 IMAGE_CHANNEL.RGBA none
      (by decide) (by decide)
  refine ⟨_, _, src_img, src_events, h, hs, hb, hsb, ?_, ?_, copy_does_nothing _ _ _ _ _, ?_⟩
  · simp [image.read, hb]
  · simp [image.read, hb, signals_failure]
  · rw [copy_does_nothing]
    simp [signals_failure]

/-- C16, amended: `image::read` on an image-backed image returns with the destination
unchanged and without any backend call or error report, and `image::copy` returns,
for each of the four pairs of backings, with the image unchanged and without any
backend call or error report. -/
theorem unimplemented_operations_do_nothing (img src_img : image) (dst : Nat → Nat)
    (offset src_offset dst_offset size_ : uint2) :
    (img.backing = BACKING.IMAGE → img.read dst offset size_ = (dst, [])) ∧
    img.copy src_img src_offset dst_offset size_ = (img, []) ∧
    ¬ signals_failure (img.copy src_img src_offset dst_offset size_).2 ∧
    (img.backing = BACKING.IMAGE → ¬ signals_failure (img.read dst offset size_).2) := by
  have hr : img.backing = BACKING.IMAGE → img.read dst offset size_ = (dst, []) := by
    intro hb
    simp [image.read, hb]
  refine ⟨hr, copy_does_nothing _ _ _ _ _, ?_, ?_⟩
  · rw [copy_does_nothing]
    simp [signals_failure]
  · intro hb
    rw [hr hb]
    simp [signals_failure]

/-- C16, amended, at a concrete input: an image-backed image read at offset (0, 0). -/
theorem unimplemented_operations_do_nothing_witness :
    (image.init 2 2 BACKING.IMAGE IMAGE_TYPE.UINT_8 IMAGE_CHANNEL.RGBA ⟨0x10B5, 0x10DA⟩).backing
      = BACKING.IMAGE ∧
    (image.init 2 2 BACKING.IMAGE IMAGE_TYPE.UINT_8 IMAGE_CHANNEL.RGBA ⟨0x10B5, 0x10DA⟩).read
      (fun _ => 7) ⟨0, 0⟩ ⟨1, 1⟩ = (fun _ => 7, []) :=
  ⟨rfl,
   (unimplemented_operations_do_nothing
     (image.init 2 2 BACKING.IMAGE IMAGE_TYPE.UINT_8 IMAGE_CHANNEL.RGBA ⟨0x10B5, 0x10DA⟩)
     (image.init 2 2 BACKING.BUFFER IMAGE_TYPE.UINT_8 IMAGE_CHANNEL.RGBA ⟨0, 0⟩)
     (fun _ => 7) ⟨0, 0⟩ ⟨0, 0⟩ ⟨0, 0⟩ ⟨1, 1⟩).1 rfl⟩

/-! ### Requests that `from_file` does not serve -/

/-- The fallback of `from_file` returns the sentinel image, whatever was called before. -/
theorem fail_return_sentinel (E : env) (backing : BACKING) (msg : String)
    (before : List event) :
    returns_sentinel E backing before
      ((fail_return E backing msg).map fun p => (p.1, before ++ p.2)) := by
  obtain ⟨img, events, ts, cs, hnew, _, _, h1, h2, h3, _, _, _, _⟩ :=
    create_buffer_outcome E
      (image.init 1 1 backing IMAGE_TYPE.UINT_8 IMAGE_CHANNEL.RGBA ⟨0, 0⟩)
      (some (u32_bytes E.endian 0xDEADBEEF))
      (show IMAGE_TYPE.UINT_8 < IMAGE_TYPE.__MAX_TYPE by decide)
      (show IMAGE_CHANNEL.RGBA < IMAGE_CHANNEL.__MAX_CHANNEL by decide)
  have hnew2 : image.new E 1 1 backing IMAGE_TYPE.UINT_8 IMAGE_CHANNEL.RGBA
      (some (u32_bytes E.endian 0xDEADBEEF)) = some (img, events) := hnew
  refine ⟨img, events, msg, ?_, hnew2, h3, h1, h2⟩
  simp only [fail_return, hnew2, Option.map_some']

/-- With a channel order of `NONE`, an 8-bit type and a file that the decoder loads,
`from_file` reaches `oclr_unreachable()`. -/
theorem from_file_channel_none (E : env) (filename : String) (backing : BACKING)
    (type : IMAGE_TYPE) (surface : SDL_Surface)
    (h8 : type = IMAGE_TYPE.INT_8 ∨ type = IMAGE_TYPE.UINT_8)
    (hload : E.sdl.IMG_Load filename = some surface) :
    image.from_file E filename backing type IMAGE_CHANNEL.NONE = none := by
  have hts : image_type_sizes[type]? = some 1 := by
    rcases h8 with h | h <;> rw [h] <;> decide
  have hcs : image_channel_sizes[IMAGE_CHANNEL.NONE]? = some 0 := by decide
  have ht : ¬ type ≥ IMAGE_TYPE.__MAX_TYPE := by
    rcases h8 with h | h <;> rw [h] <;> decide
  have hc : ¬ IMAGE_CHANNEL.NONE ≥ IMAGE_CHANNEL.__MAX_CHANNEL := by decide
  have hv : is_correct_format E.endian surface.format IMAGE_CHANNEL.NONE = none := by
    cases E.endian <;> rfl
  have hf : correct_format E.endian surface.format 0 1 IMAGE_CHANNEL.NONE = none := by
    cases E.endian <;> rfl
  simp only [image.from_file, ht, hc, if_false, hload, hts, hcs, needs_conversion, h8, if_true]
  by_cases hbpp : surface.format.BytesPerPixel ≠ size_mul 0 1
  · rw [if_pos hbpp]
    simp only [hf]
  · rw [if_neg hbpp, hv]

/-- C17, the code at the request `(UINT_8, NONE)` for the file of the concrete
environment, which the decoder loads: the guards of `from_file` let the channel order
`NONE` pass, and the call reaches `oclr_unreachable()` instead of returning the
sentinel image. -/
theorem from_file_none_reaches_unreachable :
    ¬ (IMAGE_CHANNEL.NONE ≥ IMAGE_CHANNEL.__MAX_CHANNEL) ∧
    (demo_env.sdl.IMG_Load "image.png").isSome = true ∧
    image.from_file demo_env "image.png" BACKING.BUFFER IMAGE_TYPE.UINT_8
      IMAGE_CHANNEL.NONE = none ∧
    ∀ before, ¬ returns_sentinel demo_env BACKING.BUFFER before
      (image.from_file demo_env "image.png" BACKING.BUFFER IMAGE_TYPE.UINT_8
        IMAGE_CHANNEL.NONE) := by
  have hload : (demo_env.sdl.IMG_Load "image.png").isSome = true := by decide
  obtain ⟨surface, hs⟩ := Option.isSome_iff_exists.mp hload
  have hnone := from_file_channel_none demo_env "image.png" BACKING.BUFFER IMAGE_TYPE.UINT_8
    surface (Or.inr rfl) hs
  refine ⟨by decide, hload, hnone, ?_⟩
  rintro before ⟨img, events, msg, h, _⟩
  rw [hnone] at h
  exact absurd h (by simp)

/-- C19: for every type other than `INT_8` and `UINT_8`, every channel order, every
backing and every outcome of the decoder, `from_file` returns the sentinel image, so
an image other than the sentinel can only come from a request for `INT_8` or
`UINT_8`. In particular, for such a type below `__MAX_TYPE`, a channel order below
`__MAX_CHANNEL` and any surface that the decoder loads, whatever its format, the
decoder call is followed by the error report and the sentinel image. -/
theorem from_file_only_serves_8bit (E : env) (filename : String) (backing : BACKING)
    (type : IMAGE_TYPE) (channel_order : IMAGE_CHANNEL)
    (h1 : type ≠ IMAGE_TYPE.INT_8) (h5 : type ≠ IMAGE_TYPE.UINT_8) :
    (∃ before, (∀ e ∈ before, e = event.IMG_Load filename) ∧
      returns_sentinel E backing before
        (image.from_file E filename backing type channel_order)) ∧
    (∀ surface, type < IMAGE_TYPE.__MAX_TYPE →
      channel_order < IMAGE_CHANNEL.__MAX_CHANNEL →
      E.sdl.IMG_Load filename = some surface →
      returns_sentinel E backing [event.IMG_Load filename]
        (image.from_file E filename backing type channel_order)) := by
  have hnil : ∀ msg, returns_sentinel E backing [] (fail_return E backing msg) := by
    intro msg
    have h := fail_return_sentinel E backing msg []
    have e : ((fail_return E backing msg).map fun p => (p.1, [] ++ p.2)) =
        fail_return E backing msg := by
      cases fail_return E backing msg <;> simp
    rw [e] at h
    exact h
  have hdec : ∀ surface, type < IMAGE_TYPE.__MAX_TYPE →
      channel_order < IMAGE_CHANNEL.__MAX_CHANNEL →
      E.sdl.IMG_Load filename = some surface →
      returns_sentinel E backing [event.IMG_Load filename]
        (image.from_file E filename backing type channel_order) := by
    intro surface ht hc hload
    obtain ⟨ts, cs, hts, hcs⟩ := table_entries type channel_order ht hc
    have ht2 : ¬ type ≥ IMAGE_TYPE.__MAX_TYPE := Nat.not_le.mpr ht
    have hc2 : ¬ channel_order ≥ IMAGE_CHANNEL.__MAX_CHANNEL := Nat.not_le.mpr hc
    have h8 : ¬ (type = IMAGE_TYPE.INT_8 ∨ type = IMAGE_TYPE.UINT_8) := by
      rintro (h | h)
      · exact h1 h
      · exact h5 h
    have hn : type ≠ IMAGE_TYPE.INT_8 ∧ type ≠ IMAGE_TYPE.UINT_8 := ⟨h1, h5⟩
    simp only [image.from_file, ht2, hc2, if_false, hload, hts, hcs, needs_conversion, h8]
    rw [if_pos hn]
    exact fail_return_sentinel E backing _ _
  refine ⟨?_, hdec⟩
  by_cases ht : type ≥ IMAGE_TYPE.__MAX_TYPE
  · refine ⟨[], by simp, ?_⟩
    simp only [image.from_file, ht, if_true]
    exact hnil _
  · by_cases hc : channel_order ≥ IMAGE_CHANNEL.__MAX_CHANNEL
    · refine ⟨[], by simp, ?_⟩
      simp only [image.from_file, ht, hc, if_true, if_false]
      exact hnil _
    · refine ⟨[event.IMG_Load filename], by simp, ?_⟩
      cases hload : E.sdl.IMG_Load filename with
      | none =>
        simp only [image.from_file, ht, hc, if_false, hload]
        exact fail_return_sentinel E backing _ _
      | some surface =>
        exact hdec surface (Nat.not_le.mp ht) (Nat.not_le.mp hc) hload

/-- C19 at a concrete input: the file of the concrete environment, which the decoder
loads as 2x2 little-endian RGBA, requested as `UINT_32` `R` (4 bytes per pixel, as the
surface has). -/
theorem from_file_only_serves_8bit_witness :
    (IMAGE_TYPE.UINT_32 ≠ IMAGE_TYPE.INT_8 ∧ IMAGE_TYPE.UINT_32 ≠ IMAGE_TYPE.UINT_8 ∧
     IMAGE_TYPE.UINT_32 < IMAGE_TYPE.__MAX_TYPE ∧
     IMAGE_CHANNEL.R < IMAGE_CHANNEL.__MAX_CHANNEL ∧
     (demo_env.sdl.IMG_Load "image.png").isSome = true) ∧
    ∃ before, (∀ e ∈ before, e = event.IMG_Load "image.png") ∧
      returns_sentinel demo_env BACKING.BUFFER before
        (image.from_file demo_env "image.png" BACKING.BUFFER IMAGE_TYPE.UINT_32
          IMAGE_CHANNEL.R) :=
  ⟨⟨by decide, by decide, by decide, by decide, by decide⟩,
   (from_file_only_serves_8bit demo_env "image.png" BACKING.BUFFER IMAGE_TYPE.UINT_32
      IMAGE_CHANNEL.R (by decide) (by decide)).1⟩

/-! ### The size tables -/

/-- C18: each size table has one entry for every value below its maximum marker;
`image_type_sizes` is 1, 2, 4, 8 for `INT_8` to `INT_64`, 1, 2, 4, 8 for `UINT_8` to
`UINT_64` and 2, 4, 8 for `FLOAT_16` to `FLOAT_64`; `image_channel_sizes` is 1, 2, 3, 4
for `R`, `RG`, `RGB`, `RGBA`; and below the maximum marker an entry is 0 exactly at
`NONE`. -/
theorem size_tables_total :
    (image_type_sizes.length = IMAGE_TYPE.__MAX_TYPE ∧
     image_channel_sizes.length = IMAGE_CHANNEL.__MAX_CHANNEL) ∧
    (image_type_sizes[IMAGE_TYPE.INT_8]? = some 1 ∧
     image_type_sizes[IMAGE_TYPE.INT_16]? = some 2 ∧
     image_type_sizes[IMAGE_TYPE.INT_32]? = some 4 ∧
     image_type_sizes[IMAGE_TYPE.INT_64]? = some 8 ∧
     image_type_sizes[IMAGE_TYPE.UINT_8]? = some 1 ∧
     image_type_sizes[IMAGE_TYPE.UINT_16]? = some 2 ∧
     image_type_sizes[IMAGE_TYPE.UINT_32]? = some 4 ∧
     image_type_sizes[IMAGE_TYPE.UINT_64]? = some 8 ∧
     image_type_sizes[IMAGE_TYPE.FLOAT_16]? = some 2 ∧
     image_type_sizes[IMAGE_TYPE.FLOAT_32]? = some 4 ∧
     image_type_sizes[IMAGE_TYPE.FLOAT_64]? = some 8) ∧
    (image_channel_sizes[IMAGE_CHANNEL.R]? = some 1 ∧
     image_channel_sizes[IMAGE_CHANNEL.RG]? = some 2 ∧
     image_channel_sizes[IMAGE_CHANNEL.RGB]? = some 3 ∧
     image_channel_sizes[IMAGE_CHANNEL.RGBA]? = some 4) ∧
    (∀ i, i < IMAGE_TYPE.__MAX_TYPE →
      image_type_sizes[i]? ≠ none ∧ (image_type_sizes[i]? = some 0 ↔ i = IMAGE_TYPE.NONE)) ∧
    (∀ i, i < IMAGE_CHANNEL.__MAX_CHANNEL →
      image_channel_sizes[i]? ≠ none ∧
      (image_channel_sizes[i]? = some 0 ↔ i = IMAGE_CHANNEL.NONE)) := by
  refine ⟨by decide, by decide, by decide, ?_, ?_⟩
  · have h : ∀ i : Nat, i < 12 →
        image_type_sizes[i]? ≠ none ∧ (image_type_sizes[i]? = some 0 ↔ i = 0) := by decide
    exact h
  · have h : ∀ i : Nat, i < 5 →
        image_channel_sizes[i]? ≠ none ∧ (image_channel_sizes[i]? = some 0 ↔ i = 0) := by
      decide
    exact h

/-- C18 at a concrete input: the entry of `FLOAT_16` is present and is not 0. -/
theorem size_tables_total_witness :
    IMAGE_TYPE.FLOAT_16 < IMAGE_TYPE.__MAX_TYPE ∧
    image_type_sizes[IMAGE_TYPE.FLOAT_16]? ≠ none ∧
    (image_type_sizes[IMAGE_TYPE.FLOAT_16]? = some 0 ↔ IMAGE_TYPE.FLOAT_16 = IMAGE_TYPE.NONE) :=
  ⟨by decide, size_tables_total.2.2.2.1 IMAGE_TYPE.FLOAT_16 (by decide)⟩

/-! ### The byte range of a region -/

/-- C20, the code at the 2x2 `UINT_8` `R` buffer-backed image (pixel size 1) of the
concrete environment and the region of offset (0, 0) and size (2, 2), the whole image:
the byte offset is 0 and the byte length is `2 * (2 * 1) + 2 * 1 = 6`, so the range
ends at 6, beyond the `2 * 2 * 1 = 4` bytes of pixel data; likewise the region of
offset (1, 1) and size (1, 1) gets the range from 3 to 6. -/
theorem region_exceeds_pixel_data :
    ∃ img events,
      image.new demo_env 2 2 BACKING.BUFFER IMAGE_TYPE.UINT_8 IMAGE_CHANNEL.R none =
        some (img, events) ∧
      img.size = ⟨2, 2⟩ ∧ img.img_type.pixel_size = 1 ∧
      (0 + 2 ≤ img.size.x ∧ 0 + 2 ≤ img.size.y) ∧
      img.compute_buffer_offset_and_size ⟨0, 0⟩ ⟨2, 2⟩ = ⟨0, 6⟩ ∧
      (1 + 1 ≤ img.size.x ∧ 1 + 1 ≤ img.size.y) ∧
      img.compute_buffer_offset_and_size ⟨1, 1⟩ ⟨1, 1⟩ = ⟨3, 3⟩ ∧
      ¬ ((img.compute_buffer_offset_and_size ⟨0, 0⟩ ⟨2, 2⟩).x +
         (img.compute_buffer_offset_and_size ⟨0, 0⟩ ⟨2, 2⟩).y ≤
           img.size.x * img.size.y * img.img_type.pixel_size) ∧
      (img.write (fun _ => 0xFF) ⟨0, 0⟩ ⟨2, 2⟩).2 = [event.write_buffer 0 6] := by
  obtain ⟨img, events, ts, cs, mem, h, _, _, hb, hsize, htype, _, _⟩ :=
    new_buffer_members demo_env 2 2 IMAGE_TYPE.UINT_8 IMAGE_CHANNEL.R none
      (by decide) (by decide)
  have hp : img.img_type.pixel_size = 1 := by
    rw [htype]
    decide
  have h1 : img.compute_buffer_offset_and_size ⟨0, 0⟩ ⟨2, 2⟩ = ⟨0, 6⟩ := by
    simp only [image.compute_buffer_offset_and_size, hp, hsize]
    decide
  have h2 : img.compute_buffer_offset_and_size ⟨1, 1⟩ ⟨1, 1⟩ = ⟨3, 3⟩ := by
    simp only [image.compute_buffer_offset_and_size, hp, hsize]
    decide
  refine ⟨img, events, h, hsize, hp, ?_, h1, ?_, h2, ?_, ?_⟩
  · rw [hsize]
    decide
  · rw [hsize]
    decide
  · rw [h1, hsize, hp]
    decide
  · rw [(write_buffer_call img _ _ _ hb).1, h1]

end oclraster
